import Mathlib

/-!
Verification of the pymochow example script (`example/example.py`).

The script is a sequential demo harness around the pymochow SDK.  We embed it
shallowly:

* the pure helper `num_to_binary_list` (nested inside
  `binary_vector_usage_example`) is translated directly as a function on `Nat`;
* every method of `TestMochow` is translated as a function producing an
  `Outcome`: the linear trace of SDK calls and sleeps it performs, or the trace
  up to an uncaught exception, or divergence.  Server behaviour (table states
  returned by `describe_table`, errors raised by `describe_index`, iterator
  batches, ...) is an explicit environment parameter, and the unbounded
  `while True` polling loops take a fuel argument: exhausted fuel models the
  loop still running, so a finished trace always reflects a run in which every
  poll loop exited by its own break condition.

Sleeps, SDK invocations and uncaught exceptions are the observable events; the
linear `List Event` trace captures the single-threaded, non-overlapping
execution of the script.
-/



namespace Pymochow

/-- Index types used by the example (from `pymochow.model.enum.IndexType`).
`FLAT` stands for any further member of the SDK enum not named in the script. -/
inductive IndexType
  | HNSW
  | HNSWPQ
  | PUCK
  | SPARSE_OPTIMIZED_FLAT
  | FLAT
deriving DecidableEq, Repr

/-- Table states; the script only ever compares a state against `NORMAL`. -/
inductive TableState
  | CREATING
  | NORMAL
  | DELETING
deriving DecidableEq, Repr

/-- Index states; the script only ever compares a state against `NORMAL`. -/
inductive IndexState
  | BUILDING
  | NORMAL
deriving DecidableEq, Repr

/-- Server error codes; the script inspects `TABLE_NOT_EXIST` and
`INDEX_NOT_EXIST`, other members stand for the rest of the SDK enum. -/
inductive ServerErrCode
  | TABLE_NOT_EXIST
  | INDEX_NOT_EXIST
  | DB_NOT_EXIST
  | INTERNAL_ERROR
deriving DecidableEq, Repr

/-- Metric types used by the example. -/
inductive MetricType
  | L2
  | IP
deriving DecidableEq, Repr

/-- Vector index parameters as constructed by the script.  The float field
`samplerate=1.0` of `HNSWPQParams` is omitted (floating point). -/
inductive VIndexParams
  | hnsw (m efconstruction : Nat)
  | hnswpq (m efconstruction nsq : Nat)
  | puck (coarseClusterCount fineClusterCount : Nat)
deriving DecidableEq, Repr

/-- Index definitions the script passes to `create_table` / `create_indexes`.
`params`/`auto_build` are `none` when the corresponding keyword argument is not
given at the construction site. -/
inductive IndexSpec
  | vector (index_name : String) (index_type : IndexType) (field : String)
      (metric_type : MetricType) (params : Option VIndexParams)
      (auto_build : Option Bool)
  | secondary (index_name : String) (field : String)
  | filtering (index_name : String) (fields : List String)
  | inverted (index_name : String) (fields : List String)
deriving DecidableEq, Repr

/-- Whether an `IndexSpec` is a `VectorIndex`. -/
def isVectorIdx : IndexSpec → Bool
  | .vector _ _ _ _ _ _ => true
  | _ => false

/-- The four flavours of request the script passes to `table.vector_search`. -/
inductive SearchKind
  | topk
  | range
  | batch
  | multi
deriving DecidableEq, Repr

/-- Observable events of a script run: sleeps and SDK invocations. -/
inductive Event
  | sleep (seconds : Nat)
  | databaseLookup (name : String)
  | createDatabase (name : String)
  | listDatabases
  | createTable (name : String) (indexes : List IndexSpec)
  | describeTable (name : String)
  | modifyTable (name : String)
  | dropTable (name : String)
  | dropDatabase
  | tableLookup (name : String)
  | upsert
  | addFields
  | stats
  | query
  | batchQuery
  | select
  | rebuildIndex (name : String)
  | describeIndex (name : String)
  | dropIndex (name : String)
  | createIndexes (indexes : List IndexSpec)
  | modifyIndex (name : String)
  | vectorSearch (kind : SearchKind) (limit : Option Nat)
  | bm25Search
  | hybridSearch
  | searchIteratorNew
  | iterNext
  | iterClose
  | clientClose
  | update
  | delete
deriving DecidableEq, Repr

/-- Python exceptions relevant to the script. -/
inductive PyExc
  | clientError
  | serverError (code : ServerErrCode)
  | exception (msg : String)
  | nameError (varName : String)
deriving DecidableEq, Repr

/-- Result of running a piece of the script: a completed trace, an uncaught
exception together with the trace up to it, or divergence (a poll loop that
never exits; with fuel semantics, exhausted fuel). -/
inductive Outcome
  | ok (trace : List Event)
  | exc (trace : List Event) (e : PyExc)
  | diverge
deriving DecidableEq, Repr

/-- Sequential composition of script pieces: the second runs only when the
first completed normally, and traces concatenate. -/
def Outcome.andThen : Outcome → Outcome → Outcome
  | .ok tr, .ok tr2 => .ok (tr ++ tr2)
  | .ok tr, .exc tr2 e => .exc (tr ++ tr2) e
  | .ok _, .diverge => .diverge
  | .exc tr e, _ => .exc tr e
  | .diverge, _ => .diverge

/-- Big-endian bit digits of `n`, empty for `0` (the digits of `bin(n)[2:]`
when `n > 0` have no leading zeros). -/
def bitsBE (n : Nat) : List Nat :=
  if h : n = 0 then []
  else bitsBE (n / 2) ++ [n % 2]
termination_by n
decreasing_by exact Nat.div_lt_self (Nat.pos_of_ne_zero h) one_lt_two

/-- Python `bin(num)[2:]` as a digit list: `bin(0)[2:]` is the string "0". -/
def pyBin (n : Nat) : List Nat :=
  if n = 0 then [0] else bitsBE n

/-- The helper defined inside `binary_vector_usage_example`: truncate the
binary digits to `dimension` digits (keeping the most significant ones) or
left-pad with zeros. -/
def num_to_binary_list (num dimension : Nat) : List Nat :=
  let binary_list := pyBin num
  if binary_list.length > dimension then
    binary_list.take dimension
  else if binary_list.length < dimension then
    List.replicate (dimension - binary_list.length) 0 ++ binary_list
  else
    binary_list

/-- Value denoted by a big-endian digit list in base 2. -/
def ofBits (l : List Nat) : Nat :=
  l.foldl (fun a b => 2 * a + b) 0

/-- One of the script's `while True` loops: every iteration emits `evs`, and
the loop breaks after the iteration whose break test `stop k` holds.  Returns
the emitted trace and the index of the iteration that broke. -/
def loopUntil (evs : List Event) (stop : Nat → Bool) : Nat → Nat → Option (List Event × Nat)
  | 0, _ => none
  | fuel + 1, k =>
    if stop k then some (evs, k)
    else
      match loopUntil evs stop fuel (k + 1) with
      | none => none
      | some (tr, j) => some (evs ++ tr, j)

/-- `TestMochow.clear`: look up database "book" (a `ClientError` is caught and
leaves `db = None`); if the database was found, call `drop_table`
("book_segments") with any `ServerError` caught — the handler compares
`e.code` with `TABLE_NOT_EXIST` but does nothing in either case — then sleep
10 seconds and call `drop_database`.  `dbExists` tells whether the lookup
succeeds, `dropErr` whether (and with which code) `drop_table` raises. -/
def clear (dbExists : Bool) (dropErr : Option ServerErrCode) : Outcome :=
  if dbExists then
    let dropEvents : List Event :=
      match dropErr with
      | none => [.dropTable "book_segments"]
      | some c =>
        if c = ServerErrCode.TABLE_NOT_EXIST then
          [.dropTable "book_segments"]
        else
          [.dropTable "book_segments"]
    .ok ([.databaseLookup "book"] ++ dropEvents ++ [.sleep 10, .dropDatabase])
  else
    .ok [.databaseLookup "book"]

/-- The `if/elif/else` chain of `create_db_and_table` building the single
`VectorIndex` appended to `indexes`, raising for unsupported types. -/
def buildVectorIndex (t : IndexType) : Except PyExc IndexSpec :=
  if t = IndexType.HNSW then
    .ok (.vector "vector_idx" IndexType.HNSW "vector" MetricType.L2
      (some (.hnsw 32 200)) none)
  else if t = IndexType.HNSWPQ then
    .ok (.vector "vector_idx" IndexType.HNSWPQ "vector" MetricType.L2
      (some (.hnswpq 16 200 4)) none)
  else if t = IndexType.PUCK then
    .ok (.vector "vector_idx" IndexType.PUCK "vector" MetricType.L2
      (some (.puck 5 5)) none)
  else
    .error (.exception "not support index type")

/-- The full index list handed to `db.create_table` in `create_db_and_table`:
the vector index followed by the secondary, filtering and inverted indexes. -/
def tableIndexes (vidx : IndexSpec) : List IndexSpec :=
  [vidx,
   .secondary "book_name_idx" "bookName",
   .filtering "book_name_filtering_idx" ["bookName"],
   .inverted "book_segment_inverted_idx" ["segment"]]

/-- `TestMochow.create_db_and_table`: `create_database`, `list_databases`,
build the schema (raising for an unsupported vector index type before
`create_table` is reached), `create_table`, then poll
`sleep(2); describe_table` until the table state is `NORMAL`, then
`sleep(10)`, `modify_table`, `sleep(10)`.  `tstates k` is the state returned
by the k-th `describe_table` poll. -/
def create_db_and_table (t : IndexType) (tstates : Nat → TableState) (fuel : Nat) : Outcome :=
  match buildVectorIndex t with
  | .error e => .exc [.createDatabase "book", .listDatabases] e
  | .ok vidx =>
    match loopUntil [.sleep 2, .describeTable "book_segments"]
        (fun k => decide (tstates k = TableState.NORMAL)) fuel 0 with
    | none => .diverge
    | some (ptr, _) =>
      .ok ([.createDatabase "book", .listDatabases,
            .createTable "book_segments" (tableIndexes vidx)] ++ ptr ++
           [.sleep 10, .modifyTable "book_segments", .sleep 10])

/-- `TestMochow.upsert_data`: 100 rows are built locally, then one `upsert`
and `sleep(10)`. -/
def upsert_data : Outcome :=
  .ok [.databaseLookup "book", .tableLookup "book_segments", .upsert, .sleep 10]

/-- `TestMochow.select_data`: page through `table.select` until a response
with `is_truncated == False`; `trunc k` is the `is_truncated` flag of the
k-th response. -/
def select_data (trunc : Nat → Bool) (fuel : Nat) : Outcome :=
  match loopUntil [.select] (fun k => !trunc k) fuel 0 with
  | none => .diverge
  | some (tr, _) =>
    .ok ([.databaseLookup "book", .tableLookup "book_segments"] ++ tr)

/-- `TestMochow.change_table_schema`. -/
def change_table_schema : Outcome :=
  .ok [.databaseLookup "book", .tableLookup "book_segments", .addFields]

/-- `TestMochow.show_table_stats`. -/
def show_table_stats : Outcome :=
  .ok [.databaseLookup "book", .tableLookup "book_segments", .stats]

/-- `TestMochow.query_data`. -/
def query_data : Outcome :=
  .ok [.databaseLookup "book", .tableLookup "book_segments", .query]

/-- `TestMochow.batch_query_data`. -/
def batch_query_data : Outcome :=
  .ok [.databaseLookup "book", .tableLookup "book_segments", .batchQuery]

/-- One `if/elif` block of `vector_search` assigning the local `request`:
assigned with `limit=10` for HNSW/HNSWPQ, `limit=5` for PUCK, and left
unassigned (`none`) for any other type — reading it then raises `NameError`. -/
def vsReq (t : IndexType) (k : SearchKind) : Option (SearchKind × Option Nat) :=
  if t = IndexType.HNSW ∨ t = IndexType.HNSWPQ then some (k, some 10)
  else if t = IndexType.PUCK then some (k, some 5)
  else none

/-- The `if/elif` block assigning the local `config` in `vector_search` and
`hybrid_search`; unassigned (`none`) for unsupported index types. -/
def vsConfig (t : IndexType) : Option Unit :=
  if t = IndexType.HNSW ∨ t = IndexType.HNSWPQ then some ()
  else if t = IndexType.PUCK then some ()
  else none

/-- `TestMochow.vector_search`: `rebuild_index`, then poll
`sleep(2); describe_index` until the index state is `NORMAL`, then issue the
top-k, range, batch and multi-vector searches, each preceded by the
`if/elif` request-building block (reading an unassigned local raises
`NameError` at the first search for unsupported index types). -/
def vector_search (t : IndexType) (istates : Nat → IndexState) (fuel : Nat) : Outcome :=
  match loopUntil [.sleep 2, .describeIndex "vector_idx"]
      (fun k => decide (istates k = IndexState.NORMAL)) fuel 0 with
  | none => .diverge
  | some (ptr, _) =>
    let pre := [Event.databaseLookup "book", Event.tableLookup "book_segments",
      Event.rebuildIndex "vector_idx"] ++ ptr
    match vsReq t SearchKind.topk with
    | none => .exc pre (.nameError "request")
    | some r1 =>
      let pre := pre ++ [Event.vectorSearch r1.1 r1.2]
      match vsReq t SearchKind.range with
      | none => .exc pre (.nameError "request")
      | some r2 =>
        let pre := pre ++ [Event.vectorSearch r2.1 r2.2]
        match vsReq t SearchKind.batch with
        | none => .exc pre (.nameError "request")
        | some r3 =>
          let pre := pre ++ [Event.vectorSearch r3.1 r3.2]
          match vsConfig t with
          | none => .exc pre (.nameError "config")
          | some _ =>
            .ok (pre ++ [Event.vectorSearch SearchKind.multi (some 10)])

/-- `TestMochow.search_iterator`: two `table.search_iterator` drains; each
calls `next()` repeatedly (event `iterNext`) until an empty batch is
returned, then `close()`.  `b1 k` / `b2 k` tell whether the k-th `next()` of
the first / second iterator returns a non-empty batch. -/
def search_iterator (b1 b2 : Nat → Bool) (fuel : Nat) : Outcome :=
  match loopUntil [.iterNext] (fun k => !b1 k) fuel 0 with
  | none => .diverge
  | some (tr1, _) =>
    match loopUntil [.iterNext] (fun k => !b2 k) fuel 0 with
    | none => .diverge
    | some (tr2, _) =>
      .ok ([.databaseLookup "book", .tableLookup "book_segments", .searchIteratorNew] ++
           tr1 ++ [.iterClose, .searchIteratorNew] ++ tr2 ++ [.iterClose])

/-- `TestMochow.bm25_search`. -/
def bm25_search : Outcome :=
  .ok [.databaseLookup "book", .tableLookup "book_segments", .bm25Search]

/-- `TestMochow.hybrid_search`: the `config` local is assigned only for
HNSW/HNSWPQ/PUCK; it is read while building `vector_request`, before any
search is issued, so unsupported types raise `NameError` there. -/
def hybrid_search (t : IndexType) : Outcome :=
  match vsConfig t with
  | none => .exc [.databaseLookup "book", .tableLookup "book_segments"] (.nameError "config")
  | some _ => .ok [.databaseLookup "book", .tableLookup "book_segments", .hybridSearch]

/-- `TestMochow.update_data`. -/
def update_data : Outcome :=
  .ok [.databaseLookup "book", .tableLookup "book_segments", .update]

/-- `TestMochow.delete_data`. -/
def delete_data : Outcome :=
  .ok [.databaseLookup "book", .tableLookup "book_segments", .delete]

/-- The `if/elif/else` chain of `drop_and_create_vindex` rebuilding the
`VectorIndex` (m=16 for HNSW, `auto_build=False` for HNSW and PUCK). -/
def buildVectorIndex2 (t : IndexType) : Except PyExc IndexSpec :=
  if t = IndexType.HNSW then
    .ok (.vector "vector_idx" IndexType.HNSW "vector" MetricType.L2
      (some (.hnsw 16 200)) (some false))
  else if t = IndexType.HNSWPQ then
    .ok (.vector "vector_idx" IndexType.HNSWPQ "vector" MetricType.L2
      (some (.hnswpq 16 200 4)) none)
  else if t = IndexType.PUCK then
    .ok (.vector "vector_idx" IndexType.PUCK "vector" MetricType.L2
      (some (.puck 5 5)) (some false))
  else
    .error (.exception "not support index type")

/-- `TestMochow.drop_and_create_vindex`: `drop_index`, then poll
`sleep(2); describe_index` inside a `try`: the loop breaks exactly when
`describe_index` raises a `ServerError` with code `INDEX_NOT_EXIST` (a
successful describe or any other code lets the loop continue).  Then rebuild
the index (raising for unsupported types before `create_indexes`),
`create_indexes`, `sleep(1)`, `modify_index`, `describe_index`.
`resp k = none` means the k-th poll describe succeeds, `some c` that it
raises a `ServerError` with code `c`. -/
def drop_and_create_vindex (t : IndexType) (resp : Nat → Option ServerErrCode)
    (fuel : Nat) : Outcome :=
  match loopUntil [.sleep 2, .describeIndex "vector_idx"]
      (fun k => decide (resp k = some ServerErrCode.INDEX_NOT_EXIST)) fuel 0 with
  | none => .diverge
  | some (ptr, _) =>
    let pre := [Event.databaseLookup "book", Event.tableLookup "book_segments",
      Event.dropIndex "vector_idx"] ++ ptr
    match buildVectorIndex2 t with
    | .error e => .exc pre e
    | .ok vidx =>
      .ok (pre ++ [.createIndexes [vidx], .sleep 1, .modifyIndex "vector_idx",
        .describeIndex "vector_idx"])

/-- `TestMochow.delete_and_drop`. -/
def delete_and_drop : Outcome :=
  .ok [.databaseLookup "book", .dropTable "book_segments", .sleep 10, .dropDatabase,
    .clientClose]

/-- The cleanup prologue shared verbatim by `binary_vector_usage_example` and
`sparse_vector_usage_example`: look up the database (`ClientError` caught,
leaving `db = None`); if found, `drop_table` with a bare
`except ServerError: pass`, `sleep(10)`, `drop_database`. -/
def setupCleanup (dbName tblName : String) (dbExists : Bool)
    (dropErr : Option ServerErrCode) : List Event :=
  if dbExists then
    let dropEvents : List Event :=
      match dropErr with
      | none => [.dropTable tblName]
      | some _ => [.dropTable tblName]
    [.databaseLookup dbName] ++ dropEvents ++ [.sleep 10, .dropDatabase]
  else
    [.databaseLookup dbName]

/-- `TestMochow.binary_vector_usage_example`: cleanup, `create_database`,
`create_table` (no indexes), poll `sleep(2); describe_table` until `NORMAL`,
then build 50 rows with `num_to_binary_list`, `upsert`, and one top-k search
with `limit=10`. -/
def binary_vector_usage_example (dbExists : Bool) (dropErr : Option ServerErrCode)
    (tstates : Nat → TableState) (fuel : Nat) : Outcome :=
  match loopUntil [.sleep 2, .describeTable "test_binary_vec_tab"]
      (fun k => decide (tstates k = TableState.NORMAL)) fuel 0 with
  | none => .diverge
  | some (ptr, _) =>
    .ok (setupCleanup "test_binary_vec" "test_binary_vec_tab" dbExists dropErr ++
      [.createDatabase "test_binary_vec", .createTable "test_binary_vec_tab" []] ++ ptr ++
      [.tableLookup "test_binary_vec_tab", .upsert,
       .vectorSearch SearchKind.topk (some 10)])

/-- `TestMochow.sparse_vector_usage_example`: cleanup, `create_database`,
`create_table` with a single `SPARSE_OPTIMIZED_FLAT` vector index with IP
metric, poll until `NORMAL`, `upsert` 50 rows, one top-k search with
`limit=10`. -/
def sparse_vector_usage_example (dbExists : Bool) (dropErr : Option ServerErrCode)
    (tstates : Nat → TableState) (fuel : Nat) : Outcome :=
  match loopUntil [.sleep 2, .describeTable "test_sparse_vec_tab"]
      (fun k => decide (tstates k = TableState.NORMAL)) fuel 0 with
  | none => .diverge
  | some (ptr, _) =>
    .ok (setupCleanup "test_sparse_vec" "test_sparse_vec_tab" dbExists dropErr ++
      [.createDatabase "test_sparse_vec",
       .createTable "test_sparse_vec_tab"
         [.vector "sparse_vector_idx" IndexType.SPARSE_OPTIMIZED_FLAT "vector"
           MetricType.IP none none]] ++ ptr ++
      [.tableLookup "test_sparse_vec_tab", .upsert,
       .vectorSearch SearchKind.topk (some 10)])

/-- Server-side behaviour driving one full run of the script. -/
structure Env where
  dbExists : Bool
  dropErr : Option ServerErrCode
  tstates : Nat → TableState
  selTrunc : Nat → Bool
  istates : Nat → IndexState
  iter1 : Nat → Bool
  iter2 : Nat → Bool
  dropIdxResp : Nat → Option ServerErrCode
  binDbExists : Bool
  binDropErr : Option ServerErrCode
  binStates : Nat → TableState
  spDbExists : Bool
  spDropErr : Option ServerErrCode
  spStates : Nat → TableState

/-- The `if __name__ == "__main__":` block: a `TestMochow` built with
`IndexType.HNSWPQ` runs its methods strictly one after another in the fixed
textual order of the script. -/
def mainProgram (env : Env) (fuel : Nat) : Outcome :=
  (clear env.dbExists env.dropErr).andThen
  ((create_db_and_table IndexType.HNSWPQ env.tstates fuel).andThen
  (upsert_data.andThen
  ((select_data env.selTrunc fuel).andThen
  (change_table_schema.andThen
  (show_table_stats.andThen
  (query_data.andThen
  (batch_query_data.andThen
  ((vector_search IndexType.HNSWPQ env.istates fuel).andThen
  ((search_iterator env.iter1 env.iter2 fuel).andThen
  (bm25_search.andThen
  ((hybrid_search IndexType.HNSWPQ).andThen
  (update_data.andThen
  (delete_data.andThen
  ((drop_and_create_vindex IndexType.HNSWPQ env.dropIdxResp fuel).andThen
  ((binary_vector_usage_example env.binDbExists env.binDropErr env.binStates fuel).andThen
  ((sparse_vector_usage_example env.spDbExists env.spDropErr env.spStates fuel).andThen
  delete_and_drop))))))))))))))))

/-- Every sleep in the trace is one of the literal durations 1, 2, 10 that
appear in the script. -/
def goodSleeps (tr : List Event) : Prop :=
  ∀ n, Event.sleep n ∈ tr → n = 1 ∨ n = 2 ∨ n = 10

/-- An environment where every poll succeeds immediately, both iterators
return an empty first batch, paging ends at once, and the dropped index is
reported missing at the first poll. -/
def envW : Env where
  dbExists := false
  dropErr := none
  tstates := fun _ => TableState.NORMAL
  selTrunc := fun _ => false
  istates := fun _ => IndexState.NORMAL
  iter1 := fun _ => false
  iter2 := fun _ => false
  dropIdxResp := fun _ => some ServerErrCode.INDEX_NOT_EXIST
  binDbExists := false
  binDropErr := none
  binStates := fun _ => TableState.NORMAL
  spDbExists := false
  spDropErr := none
  spStates := fun _ => TableState.NORMAL

/-- The trace of the full script run in `envW` with fuel 1. -/
def mainTraceW : List Event :=
  match mainProgram envW 1 with
  | .ok tr => tr
  | _ => []

/-- Table states that become NORMAL at the second poll. -/
def tstatesW : Nat → TableState :=
  fun j => if j = 0 then TableState.CREATING else TableState.NORMAL

/-- Index states that become NORMAL at the second poll. -/
def istatesW : Nat → IndexState :=
  fun j => if j = 0 then IndexState.BUILDING else IndexState.NORMAL

/-- The trace of `create_db_and_table` with HNSW under `tstatesW`. -/
def trCreateW : List Event :=
  match create_db_and_table IndexType.HNSW tstatesW 2 with
  | .ok tr => tr
  | _ => []

/-- The trace of `vector_search` with HNSW under `istatesW`. -/
def trVSW : List Event :=
  match vector_search IndexType.HNSW istatesW 2 with
  | .ok tr => tr
  | _ => []

/-- The binary example trace when the database does not pre-exist. -/
def trBinW1 : List Event :=
  match binary_vector_usage_example false none (fun _ => TableState.NORMAL) 1 with
  | .ok tr => tr
  | _ => []

/-- The binary example trace when the database pre-exists and `drop_table`
reports `TABLE_NOT_EXIST`. -/
def trBinW2 : List Event :=
  match binary_vector_usage_example true (some ServerErrCode.TABLE_NOT_EXIST)
      (fun _ => TableState.NORMAL) 1 with
  | .ok tr => tr
  | _ => []

/-- The trace of `drop_and_create_vindex` under an immediately-missing index. -/
def trDropW : List Event :=
  match drop_and_create_vindex IndexType.HNSWPQ
      (fun _ => some ServerErrCode.INDEX_NOT_EXIST) 1 with
  | .ok tr => tr
  | _ => []

theorem ofBits_nil : ofBits [] = 0 := rfl

theorem foldl_bits_eq (l : List Nat) :
    ∀ a : Nat, l.foldl (fun a b => 2 * a + b) a = a * 2 ^ l.length + ofBits l := by
  induction l with
  | nil => intro a; simp [ofBits]
  | cons x xs ih =>
    intro a
    have h1 : List.foldl (fun a b => 2 * a + b) a (x :: xs) =
        List.foldl (fun a b => 2 * a + b) (2 * a + x) xs := rfl
    have h2 : ofBits (x :: xs) = List.foldl (fun a b => 2 * a + b) (2 * 0 + x) xs := rfl
    rw [h1, ih (2 * a + x), h2, ih (2 * 0 + x), List.length_cons]
    ring

theorem ofBits_append (l₁ l₂ : List Nat) :
    ofBits (l₁ ++ l₂) = ofBits l₁ * 2 ^ l₂.length + ofBits l₂ := by
  rw [ofBits, List.foldl_append, foldl_bits_eq]
  rfl

theorem ofBits_replicate_zero (k : Nat) : ofBits (List.replicate k 0) = 0 := by
  induction k with
  | zero => rfl
  | succ n ih =>
    rw [List.replicate_succ]
    show List.foldl _ (2 * 0 + 0) _ = 0
    simpa [ofBits] using ih

theorem ofBits_lt_of_bits {l : List Nat} (h : ∀ x ∈ l, x = 0 ∨ x = 1) :
    ofBits l < 2 ^ l.length := by
  induction l using List.reverseRecOn with
  | nil => simp [ofBits]
  | append_singleton xs b ih =>
    rw [ofBits_append]
    have hb : b = 0 ∨ b = 1 := h b (by simp)
    have hxs : ofBits xs < 2 ^ xs.length := ih fun x hx => h x (by simp [hx])
    simp only [List.length_append, List.length_cons, List.length_nil]
    have : ofBits [b] ≤ 1 := by
      rcases hb with hb | hb <;> simp [hb, ofBits]
    calc ofBits xs * 2 ^ ([b] : List Nat).length + ofBits [b]
        ≤ ofBits xs * 2 + 1 := by
          simp only [List.length_cons, List.length_nil, pow_one]
          omega
      _ < 2 ^ (xs.length + 1) := by
          rw [pow_succ]
          omega

theorem bitsBE_mem {n : Nat} : ∀ x ∈ bitsBE n, x = 0 ∨ x = 1 := by
  induction n using Nat.strong_induction_on with
  | _ n ih =>
    intro x hx
    rw [bitsBE] at hx
    by_cases h : n = 0
    · simp [h] at hx
    · simp only [h, dite_false, List.mem_append, List.mem_singleton] at hx
      rcases hx with hx | hx
      · exact ih (n / 2) (Nat.div_lt_self (Nat.pos_of_ne_zero h) one_lt_two) x hx
      · subst hx
        omega

theorem ofBits_bitsBE (n : Nat) : ofBits (bitsBE n) = n := by
  induction n using Nat.strong_induction_on with
  | _ n ih =>
    rw [bitsBE]
    by_cases h : n = 0
    · simp [h, ofBits]
    · simp only [h, dite_false]
      rw [ofBits_append, ih (n / 2) (Nat.div_lt_self (Nat.pos_of_ne_zero h) one_lt_two)]
      simp [ofBits]
      omega

theorem bitsBE_length_le {n d : Nat} (h : n < 2 ^ d) : (bitsBE n).length ≤ d := by
  induction n using Nat.strong_induction_on generalizing d with
  | _ n ih =>
    rw [bitsBE]
    by_cases h0 : n = 0
    · simp [h0]
    · simp only [h0, dite_false, List.length_append, List.length_cons, List.length_nil]
      have hd : d ≠ 0 := by
        intro hd
        subst hd
        simp at h
        omega
      obtain ⟨d', rfl⟩ := Nat.exists_eq_succ_of_ne_zero hd
      have hdiv : n / 2 < 2 ^ d' := by
        have hp : (2 : Nat) ^ (d' + 1) = 2 ^ d' * 2 := pow_succ 2 d'
        omega
      have := ih (n / 2) (Nat.div_lt_self (Nat.pos_of_ne_zero h0) one_lt_two) hdiv
      omega

theorem lt_bitsBE_length {n d : Nat} (h : 2 ^ d ≤ n) :
    d < (bitsBE n).length := by
  by_contra hc
  push_neg at hc
  have h1 : n < 2 ^ (bitsBE n).length := by
    have := ofBits_lt_of_bits (l := bitsBE n) bitsBE_mem
    rwa [ofBits_bitsBE] at this
  have : (2 : Nat) ^ (bitsBE n).length ≤ 2 ^ d := Nat.pow_le_pow_right (by omega) hc
  omega

theorem pyBin_mem (n : Nat) : ∀ x ∈ pyBin n, x = 0 ∨ x = 1 := by
  by_cases h : n = 0
  · intro x hx
    simp [pyBin, h] at hx
    left
    exact hx
  · intro x hx
    simp only [pyBin, h, if_false] at hx
    exact bitsBE_mem x hx

theorem ofBits_pyBin (n : Nat) : ofBits (pyBin n) = n := by
  by_cases h : n = 0
  · simp [pyBin, h, ofBits]
  · simp only [pyBin, h, if_false]
    exact ofBits_bitsBE n

/-- C2: for every `num ≥ 0` and `dimension ≥ 1`, `num_to_binary_list` returns
exactly `dimension` digits, each 0 or 1 (so the assertion in the Python helper
never fails); when `num < 2 ^ dimension` the result denotes `num` (big-endian
binary left-padded with zeros), and when `num ≥ 2 ^ dimension` the result is
the `dimension` most-significant bits of `num`, the low-order bits being
discarded. -/
theorem num_to_binary_list_correct (num dimension : Nat) (hd : 1 ≤ dimension) :
    (num_to_binary_list num dimension).length = dimension ∧
    (∀ x ∈ num_to_binary_list num dimension, x = 0 ∨ x = 1) ∧
    (num < 2 ^ dimension → ofBits (num_to_binary_list num dimension) = num) ∧
    (2 ^ dimension ≤ num →
      num_to_binary_list num dimension = (bitsBE num).take dimension ∧
      ofBits (num_to_binary_list num dimension) =
        num / 2 ^ ((bitsBE num).length - dimension)) := by
  by_cases hgt : dimension < (pyBin num).length
  · have hnum : num ≠ 0 := by
      intro h0
      rw [h0] at hgt
      simp [pyBin] at hgt
      omega
    have hpb : pyBin num = bitsBE num := by simp [pyBin, hnum]
    rw [hpb] at hgt
    have hres : num_to_binary_list num dimension = (bitsBE num).take dimension := by
      simp only [num_to_binary_list, gt_iff_lt, hpb, hgt, if_true]
    have hlen : ((bitsBE num).take dimension).length = dimension := by
      rw [List.length_take]
      omega
    refine ⟨by rw [hres, hlen], ?_, ?_, ?_⟩
    · intro x hx
      rw [hres] at hx
      exact bitsBE_mem x (List.take_subset _ _ hx)
    · intro hlt
      exfalso
      have := bitsBE_length_le (n := num) (d := dimension) hlt
      omega
    · intro _
      refine ⟨hres, ?_⟩
      rw [hres]
      have hsplit := List.take_append_drop dimension (bitsBE num)
      have hdlen : ((bitsBE num).drop dimension).length = (bitsBE num).length - dimension :=
        List.length_drop _ _
      have hnval : ofBits ((bitsBE num).take dimension) * 2 ^ ((bitsBE num).length - dimension)
          + ofBits ((bitsBE num).drop dimension) = num := by
        rw [← hdlen, ← ofBits_append, hsplit, ofBits_bitsBE]
      have hrem : ofBits ((bitsBE num).drop dimension) < 2 ^ ((bitsBE num).length - dimension) := by
        have := ofBits_lt_of_bits (l := (bitsBE num).drop dimension)
          (fun x hx => bitsBE_mem x (List.drop_subset _ _ hx))
        rwa [hdlen] at this
      have harith : ∀ q m r n : Nat, 0 < m → q * m + r = n → r < m → n / m = q := by
        intro q m r n hm hqr hr
        subst hqr
        rw [Nat.mul_comm q m, Nat.mul_add_div hm, Nat.div_eq_of_lt hr]
        omega
      exact (harith (ofBits ((bitsBE num).take dimension))
        (2 ^ ((bitsBE num).length - dimension))
        (ofBits ((bitsBE num).drop dimension)) num
        (pow_pos (by norm_num) _) hnval hrem).symm
  · push_neg at hgt
    have h4 : ¬ 2 ^ dimension ≤ num := by
      intro hge
      have hpos : 0 < 2 ^ dimension := pow_pos (by norm_num) _
      have hnum : num ≠ 0 := by omega
      have := lt_bitsBE_length (n := num) (d := dimension) hge
      rw [show pyBin num = bitsBE num from by simp [pyBin, hnum]] at hgt
      omega
    by_cases hlt : (pyBin num).length < dimension
    · have hres : num_to_binary_list num dimension =
          List.replicate (dimension - (pyBin num).length) 0 ++ pyBin num := by
        simp only [num_to_binary_list, gt_iff_lt, if_neg (by omega : ¬ dimension < (pyBin num).length),
          hlt, if_true]
      refine ⟨?_, ?_, ?_, fun hge => absurd hge h4⟩
      · rw [hres]
        simp only [List.length_append, List.length_replicate]
        omega
      · intro x hx
        rw [hres] at hx
        rcases List.mem_append.mp hx with hx | hx
        · exact Or.inl (List.eq_of_mem_replicate hx)
        · exact pyBin_mem num x hx
      · intro _
        rw [hres, ofBits_append, ofBits_replicate_zero, ofBits_pyBin]
        ring
    · have hlen : (pyBin num).length = dimension := by omega
      have hres : num_to_binary_list num dimension = pyBin num := by
        simp only [num_to_binary_list, gt_iff_lt,
          if_neg (by omega : ¬ dimension < (pyBin num).length), if_neg hlt]
      refine ⟨by rw [hres, hlen], fun x hx => pyBin_mem num x (hres ▸ hx),
        fun _ => by rw [hres, ofBits_pyBin], fun hge => absurd hge h4⟩

/-- Witness for C2 at `num = 123`, `dimension = 8`. -/
theorem num_to_binary_list_correct_witness :
    (num_to_binary_list 123 8).length = 8 ∧
    (∀ x ∈ num_to_binary_list 123 8, x = 0 ∨ x = 1) ∧
    (123 < 2 ^ 8 → ofBits (num_to_binary_list 123 8) = 123) ∧
    (2 ^ 8 ≤ 123 →
      num_to_binary_list 123 8 = (bitsBE 123).take 8 ∧
      ofBits (num_to_binary_list 123 8) = 123 / 2 ^ ((bitsBE 123).length - 8)) :=
  num_to_binary_list_correct 123 8 (by decide)

theorem loopUntil_spec (evs : List Event) (stop : Nat → Bool) :
    ∀ (fuel k : Nat) (tr : List Event) (j : Nat),
      loopUntil evs stop fuel k = some (tr, j) →
      k ≤ j ∧ stop j = true ∧ (∀ i, k ≤ i → i < j → stop i = false) ∧
      tr = (List.replicate (j + 1 - k) evs).flatten := by
  intro fuel
  induction fuel with
  | zero =>
    intro k tr j h
    simp [loopUntil] at h
  | succ n ih =>
    intro k tr j h
    simp only [loopUntil] at h
    by_cases hs : stop k = true
    · rw [if_pos hs] at h
      obtain ⟨rfl, rfl⟩ : evs = tr ∧ k = j := by
        constructor <;> [exact congrArg Prod.fst (Option.some.inj h);
          exact congrArg Prod.snd (Option.some.inj h)]
      refine ⟨Nat.le_refl _, hs, fun i h1 h2 => by omega, ?_⟩
      simp
    · rw [if_neg hs] at h
      simp only [Bool.not_eq_true] at hs
      cases hrec : loopUntil evs stop n (k + 1) with
      | none => rw [hrec] at h; exact absurd h (by simp)
      | some p =>
        obtain ⟨tr0, j0⟩ := p
        rw [hrec] at h
        obtain ⟨htr, hj⟩ : evs ++ tr0 = tr ∧ j0 = j := by
          constructor <;> [exact congrArg Prod.fst (Option.some.inj h);
            exact congrArg Prod.snd (Option.some.inj h)]
        obtain ⟨hle, hstop, hmid, htr0⟩ := ih (k + 1) tr0 j0 hrec
        rw [← hj]
        refine ⟨by omega, hstop, ?_, ?_⟩
        · intro i h1 h2
          rcases Nat.eq_or_lt_of_le h1 with heq | hlt
          · rw [← heq]; exact hs
          · exact hmid i hlt h2
        · rw [← htr, htr0]
          have h5 : j0 + 1 - k = (j0 - k) + 1 := by omega
          have h6 : j0 + 1 - (k + 1) = j0 - k := by omega
          rw [h5, h6, List.replicate_succ, List.flatten_cons]

theorem loopUntil_none (evs : List Event) (stop : Nat → Bool)
    (h : ∀ i, stop i = false) : ∀ fuel k, loopUntil evs stop fuel k = none := by
  intro fuel
  induction fuel with
  | zero => intro k; rfl
  | succ n ih =>
    intro k
    simp only [loopUntil, h k, Bool.false_eq_true, if_false, ih (k + 1)]

theorem andThen_ok_elim {a b : Outcome} {tr : List Event}
    (h : a.andThen b = .ok tr) :
    ∃ ta tb, a = .ok ta ∧ b = .ok tb ∧ tr = ta ++ tb := by
  cases a with
  | ok ta =>
    cases b with
    | ok tb =>
      refine ⟨ta, tb, rfl, rfl, ?_⟩
      have : Outcome.ok (ta ++ tb) = Outcome.ok tr := h
      exact (Outcome.ok.inj this).symm
    | exc tb e => exact absurd h (by simp [Outcome.andThen])
    | diverge => exact absurd h (by simp [Outcome.andThen])
  | exc ta e => exact absurd h (by simp [Outcome.andThen])
  | diverge => exact absurd h (by simp [Outcome.andThen])

theorem create_db_and_table_ok_elim {t : IndexType} {tstates : Nat → TableState}
    {fuel : Nat} {tr : List Event}
    (h : create_db_and_table t tstates fuel = .ok tr) :
    ∃ vidx ptr j,
      buildVectorIndex t = .ok vidx ∧
      loopUntil [.sleep 2, .describeTable "book_segments"]
        (fun k => decide (tstates k = TableState.NORMAL)) fuel 0 = some (ptr, j) ∧
      tr = [.createDatabase "book", .listDatabases,
            .createTable "book_segments" (tableIndexes vidx)] ++ ptr ++
           [.sleep 10, .modifyTable "book_segments", .sleep 10] := by
  cases hb : buildVectorIndex t with
  | error e =>
    simp only [create_db_and_table, hb] at h
    exact absurd h (by simp)
  | ok vidx =>
    cases hl : loopUntil [.sleep 2, .describeTable "book_segments"]
        (fun k => decide (tstates k = TableState.NORMAL)) fuel 0 with
    | none =>
      simp only [create_db_and_table, hb, hl] at h
      exact absurd h (by simp)
    | some p =>
      obtain ⟨ptr, j⟩ := p
      simp only [create_db_and_table, hb, hl] at h
      exact ⟨vidx, ptr, j, rfl, rfl, by simpa using h.symm⟩

theorem select_data_ok_elim {trunc : Nat → Bool} {fuel : Nat} {tr : List Event}
    (h : select_data trunc fuel = .ok tr) :
    ∃ str j,
      loopUntil [.select] (fun k => !trunc k) fuel 0 = some (str, j) ∧
      tr = [.databaseLookup "book", .tableLookup "book_segments"] ++ str := by
  cases hl : loopUntil [.select] (fun k => !trunc k) fuel 0 with
  | none =>
    simp only [select_data, hl] at h
    exact absurd h (by simp)
  | some p =>
    obtain ⟨str, j⟩ := p
    simp only [select_data, hl] at h
    exact ⟨str, j, rfl, by simpa using h.symm⟩

theorem vector_search_ok_elim {t : IndexType} {istates : Nat → IndexState}
    {fuel : Nat} {tr : List Event}
    (h : vector_search t istates fuel = .ok tr) :
    ∃ ptr j r1 r2 r3,
      loopUntil [.sleep 2, .describeIndex "vector_idx"]
        (fun k => decide (istates k = IndexState.NORMAL)) fuel 0 = some (ptr, j) ∧
      vsReq t SearchKind.topk = some r1 ∧
      vsReq t SearchKind.range = some r2 ∧
      vsReq t SearchKind.batch = some r3 ∧
      vsConfig t = some () ∧
      tr = ([.databaseLookup "book", .tableLookup "book_segments",
             .rebuildIndex "vector_idx"] ++ ptr) ++
           [.vectorSearch r1.1 r1.2, .vectorSearch r2.1 r2.2, .vectorSearch r3.1 r3.2,
            .vectorSearch SearchKind.multi (some 10)] := by
  cases hl : loopUntil [.sleep 2, .describeIndex "vector_idx"]
      (fun k => decide (istates k = IndexState.NORMAL)) fuel 0 with
  | none =>
    simp only [vector_search, hl] at h
    exact absurd h (by simp)
  | some p =>
    obtain ⟨ptr, j⟩ := p
    cases h1 : vsReq t SearchKind.topk with
    | none =>
      simp only [vector_search, hl, h1] at h
      exact absurd h (by simp)
    | some r1 =>
      cases h2 : vsReq t SearchKind.range with
      | none =>
        simp only [vector_search, hl, h1, h2] at h
        exact absurd h (by simp)
      | some r2 =>
        cases h3 : vsReq t SearchKind.batch with
        | none =>
          simp only [vector_search, hl, h1, h2, h3] at h
          exact absurd h (by simp)
        | some r3 =>
          cases h4 : vsConfig t with
          | none =>
            simp only [vector_search, hl, h1, h2, h3, h4] at h
            exact absurd h (by simp)
          | some u =>
            simp only [vector_search, hl, h1, h2, h3, h4] at h
            refine ⟨ptr, j, r1, r2, r3, rfl, rfl, rfl, rfl, ?_⟩
            · cases u
              simp at h ⊢
              exact h.symm

theorem search_iterator_ok_elim {b1 b2 : Nat → Bool} {fuel : Nat} {tr : List Event}
    (h : search_iterator b1 b2 fuel = .ok tr) :
    ∃ tr1 j1 tr2 j2,
      loopUntil [.iterNext] (fun k => !b1 k) fuel 0 = some (tr1, j1) ∧
      loopUntil [.iterNext] (fun k => !b2 k) fuel 0 = some (tr2, j2) ∧
      tr = [.databaseLookup "book", .tableLookup "book_segments", .searchIteratorNew] ++
           tr1 ++ [.iterClose, .searchIteratorNew] ++ tr2 ++ [.iterClose] := by
  cases h1 : loopUntil [.iterNext] (fun k => !b1 k) fuel 0 with
  | none =>
    simp only [search_iterator, h1] at h
    exact absurd h (by simp)
  | some p =>
    obtain ⟨tr1, j1⟩ := p
    cases h2 : loopUntil [.iterNext] (fun k => !b2 k) fuel 0 with
    | none =>
      simp only [search_iterator, h1, h2] at h
      exact absurd h (by simp)
    | some q =>
      obtain ⟨tr2, j2⟩ := q
      simp only [search_iterator, h1, h2] at h
      refine ⟨tr1, j1, tr2, j2, rfl, rfl, ?_⟩
      simp at h ⊢
      exact h.symm

theorem drop_and_create_vindex_ok_elim {t : IndexType} {resp : Nat → Option ServerErrCode}
    {fuel : Nat} {tr : List Event}
    (h : drop_and_create_vindex t resp fuel = .ok tr) :
    ∃ ptr j vidx,
      loopUntil [.sleep 2, .describeIndex "vector_idx"]
        (fun k => decide (resp k = some ServerErrCode.INDEX_NOT_EXIST)) fuel 0 = some (ptr, j) ∧
      buildVectorIndex2 t = .ok vidx ∧
      tr = ([.databaseLookup "book", .tableLookup "book_segments",
             .dropIndex "vector_idx"] ++ ptr) ++
           [.createIndexes [vidx], .sleep 1, .modifyIndex "vector_idx",
            .describeIndex "vector_idx"] := by
  cases hl : loopUntil [.sleep 2, .describeIndex "vector_idx"]
      (fun k => decide (resp k = some ServerErrCode.INDEX_NOT_EXIST)) fuel 0 with
  | none =>
    simp only [drop_and_create_vindex, hl] at h
    exact absurd h (by simp)
  | some p =>
    obtain ⟨ptr, j⟩ := p
    cases hb : buildVectorIndex2 t with
    | error e =>
      simp only [drop_and_create_vindex, hl, hb] at h
      exact absurd h (by simp)
    | ok vidx =>
      simp only [drop_and_create_vindex, hl, hb] at h
      refine ⟨ptr, j, vidx, rfl, rfl, ?_⟩
      simp at h ⊢
      exact h.symm

theorem drop_and_create_vindex_exc_elim {t : IndexType} {resp : Nat → Option ServerErrCode}
    {fuel : Nat} {tr : List Event} {e : PyExc}
    (h : drop_and_create_vindex t resp fuel = .exc tr e) :
    ∃ ptr j,
      loopUntil [.sleep 2, .describeIndex "vector_idx"]
        (fun k => decide (resp k = some ServerErrCode.INDEX_NOT_EXIST)) fuel 0 = some (ptr, j) ∧
      buildVectorIndex2 t = .error e ∧
      tr = [.databaseLookup "book", .tableLookup "book_segments",
            .dropIndex "vector_idx"] ++ ptr := by
  cases hl : loopUntil [.sleep 2, .describeIndex "vector_idx"]
      (fun k => decide (resp k = some ServerErrCode.INDEX_NOT_EXIST)) fuel 0 with
  | none =>
    simp only [drop_and_create_vindex, hl] at h
    exact absurd h (by simp)
  | some p =>
    obtain ⟨ptr, j⟩ := p
    cases hb : buildVectorIndex2 t with
    | error e2 =>
      simp only [drop_and_create_vindex, hl, hb] at h
      obtain ⟨htr, he⟩ : [Event.databaseLookup "book", Event.tableLookup "book_segments",
          Event.dropIndex "vector_idx"] ++ ptr = tr ∧ e2 = e := by simpa using h
      exact ⟨ptr, j, rfl, by rw [← he], htr.symm⟩
    | ok vidx =>
      simp only [drop_and_create_vindex, hl, hb] at h
      exact absurd h (by simp)

theorem vsReq_eq_none_iff (t : IndexType) (k : SearchKind) :
    vsReq t k = none ↔
      t ≠ IndexType.HNSW ∧ t ≠ IndexType.HNSWPQ ∧ t ≠ IndexType.PUCK := by
  cases t <;> simp [vsReq]

theorem vsConfig_eq_none_iff (t : IndexType) :
    vsConfig t = none ↔
      t ≠ IndexType.HNSW ∧ t ≠ IndexType.HNSWPQ ∧ t ≠ IndexType.PUCK := by
  cases t <;> simp [vsConfig]

theorem vector_search_exc_elim {t : IndexType} {istates : Nat → IndexState}
    {fuel : Nat} {tr : List Event} {e : PyExc}
    (h : vector_search t istates fuel = .exc tr e) :
    ∃ ptr j,
      loopUntil [.sleep 2, .describeIndex "vector_idx"]
        (fun k => decide (istates k = IndexState.NORMAL)) fuel 0 = some (ptr, j) ∧
      vsReq t SearchKind.topk = none ∧
      e = .nameError "request" ∧
      tr = [.databaseLookup "book", .tableLookup "book_segments",
            .rebuildIndex "vector_idx"] ++ ptr := by
  cases hl : loopUntil [.sleep 2, .describeIndex "vector_idx"]
      (fun k => decide (istates k = IndexState.NORMAL)) fuel 0 with
  | none =>
    simp only [vector_search, hl] at h
    exact absurd h (by simp)
  | some p =>
    obtain ⟨ptr, j⟩ := p
    by_cases hsup : t ≠ IndexType.HNSW ∧ t ≠ IndexType.HNSWPQ ∧ t ≠ IndexType.PUCK
    · have h1 : vsReq t SearchKind.topk = none := (vsReq_eq_none_iff t _).mpr hsup
      simp only [vector_search, hl, h1] at h
      obtain ⟨htr, he⟩ : [Event.databaseLookup "book", Event.tableLookup "book_segments",
          Event.rebuildIndex "vector_idx"] ++ ptr = tr ∧ PyExc.nameError "request" = e := by
        simpa using h
      exact ⟨ptr, j, rfl, h1, he.symm, htr.symm⟩
    · exfalso
      have hsup2 : t = IndexType.HNSW ∨ t = IndexType.HNSWPQ ∨ t = IndexType.PUCK := by
        by_contra hc
        push_neg at hc
        exact hsup ⟨hc.1, hc.2.1, hc.2.2⟩
      rcases hsup2 with rfl | rfl | rfl <;>
        simp [vector_search, hl, vsReq, vsConfig] at h

theorem binary_vector_usage_example_ok_elim {dbExists : Bool}
    {dropErr : Option ServerErrCode} {tstates : Nat → TableState}
    {fuel : Nat} {tr : List Event}
    (h : binary_vector_usage_example dbExists dropErr tstates fuel = .ok tr) :
    ∃ ptr j,
      loopUntil [.sleep 2, .describeTable "test_binary_vec_tab"]
        (fun k => decide (tstates k = TableState.NORMAL)) fuel 0 = some (ptr, j) ∧
      tr = setupCleanup "test_binary_vec" "test_binary_vec_tab" dbExists dropErr ++
        [.createDatabase "test_binary_vec", .createTable "test_binary_vec_tab" []] ++ ptr ++
        [.tableLookup "test_binary_vec_tab", .upsert,
         .vectorSearch SearchKind.topk (some 10)] := by
  cases hl : loopUntil [.sleep 2, .describeTable "test_binary_vec_tab"]
      (fun k => decide (tstates k = TableState.NORMAL)) fuel 0 with
  | none =>
    simp only [binary_vector_usage_example, hl] at h
    exact absurd h (by simp)
  | some p =>
    obtain ⟨ptr, j⟩ := p
    simp only [binary_vector_usage_example, hl] at h
    refine ⟨ptr, j, rfl, ?_⟩
    simp at h ⊢
    exact h.symm

theorem sparse_vector_usage_example_ok_elim {dbExists : Bool}
    {dropErr : Option ServerErrCode} {tstates : Nat → TableState}
    {fuel : Nat} {tr : List Event}
    (h : sparse_vector_usage_example dbExists dropErr tstates fuel = .ok tr) :
    ∃ ptr j,
      loopUntil [.sleep 2, .describeTable "test_sparse_vec_tab"]
        (fun k => decide (tstates k = TableState.NORMAL)) fuel 0 = some (ptr, j) ∧
      tr = setupCleanup "test_sparse_vec" "test_sparse_vec_tab" dbExists dropErr ++
        [.createDatabase "test_sparse_vec",
         .createTable "test_sparse_vec_tab"
           [.vector "sparse_vector_idx" IndexType.SPARSE_OPTIMIZED_FLAT "vector"
             MetricType.IP none none]] ++ ptr ++
        [.tableLookup "test_sparse_vec_tab", .upsert,
         .vectorSearch SearchKind.topk (some 10)] := by
  cases hl : loopUntil [.sleep 2, .describeTable "test_sparse_vec_tab"]
      (fun k => decide (tstates k = TableState.NORMAL)) fuel 0 with
  | none =>
    simp only [sparse_vector_usage_example, hl] at h
    exact absurd h (by simp)
  | some p =>
    obtain ⟨ptr, j⟩ := p
    simp only [sparse_vector_usage_example, hl] at h
    refine ⟨ptr, j, rfl, ?_⟩
    simp at h ⊢
    exact h.symm

theorem clear_not_found (d : Option ServerErrCode) :
    clear false d = .ok [.databaseLookup "book"] := rfl

theorem clear_found (d : Option ServerErrCode) :
    clear true d = .ok [.databaseLookup "book", .dropTable "book_segments",
      .sleep 10, .dropDatabase] := by
  cases d with
  | none => rfl
  | some c => cases c <;> rfl

theorem setupCleanup_not_found (dbName tblName : String) (d : Option ServerErrCode) :
    setupCleanup dbName tblName false d = [.databaseLookup dbName] := rfl

theorem setupCleanup_found (dbName tblName : String) (d : Option ServerErrCode) :
    setupCleanup dbName tblName true d =
      [.databaseLookup dbName, .dropTable tblName, .sleep 10, .dropDatabase] := by
  cases d <;> rfl

theorem goodSleeps_append {a b : List Event} (ha : goodSleeps a) (hb : goodSleeps b) :
    goodSleeps (a ++ b) := by
  intro n hn
  rcases List.mem_append.mp hn with hn | hn
  exacts [ha n hn, hb n hn]

theorem goodSleeps_flatten_replicate {evs : List Event} (m : Nat)
    (h : goodSleeps evs) : goodSleeps (List.replicate m evs).flatten := by
  intro n hn
  obtain ⟨l, hl, hnl⟩ := List.mem_flatten.mp hn
  rw [List.eq_of_mem_replicate hl] at hnl
  exact h n hnl

theorem goodSleeps_poll (name : String) :
    goodSleeps [.sleep 2, .describeTable name] := by
  intro n hn
  simp at hn
  omega

theorem goodSleeps_pollIdx (name : String) :
    goodSleeps [.sleep 2, .describeIndex name] := by
  intro n hn
  simp at hn
  omega

theorem goodSleeps_loopTrace {evs : List Event} {stop : Nat → Bool}
    {fuel k j : Nat} {tr : List Event}
    (hl : loopUntil evs stop fuel k = some (tr, j)) (h : goodSleeps evs) :
    goodSleeps tr := by
  obtain ⟨-, -, -, htr⟩ := loopUntil_spec evs stop fuel k tr j hl
  rw [htr]
  exact goodSleeps_flatten_replicate _ h

theorem hybrid_search_ok_elim {t : IndexType} {tr : List Event}
    (h : hybrid_search t = .ok tr) :
    vsConfig t = some () ∧
    tr = [.databaseLookup "book", .tableLookup "book_segments", .hybridSearch] := by
  cases hc : vsConfig t with
  | none =>
    simp only [hybrid_search, hc] at h
    exact absurd h (by simp)
  | some u =>
    cases u
    simp only [hybrid_search, hc] at h
    exact ⟨rfl, (Outcome.ok.inj h).symm⟩

theorem goodSleeps_clear {b : Bool} {d : Option ServerErrCode} {tr : List Event}
    (h : clear b d = .ok tr) : goodSleeps tr := by
  cases b
  · cases Outcome.ok.inj ((clear_not_found d).symm.trans h)
    intro n hn
    simp at hn
  · cases Outcome.ok.inj ((clear_found d).symm.trans h)
    intro n hn
    simp at hn
    omega

theorem goodSleeps_create_db_and_table {t : IndexType} {tstates : Nat → TableState}
    {fuel : Nat} {tr : List Event}
    (h : create_db_and_table t tstates fuel = .ok tr) : goodSleeps tr := by
  obtain ⟨vidx, ptr, j, -, hl, rfl⟩ := create_db_and_table_ok_elim h
  refine goodSleeps_append (goodSleeps_append ?_ ?_) ?_
  · intro n hn; simp at hn
  · exact goodSleeps_loopTrace hl (goodSleeps_poll _)
  · intro n hn; simp at hn; omega

theorem goodSleeps_upsert_data {tr : List Event} (h : upsert_data = .ok tr) :
    goodSleeps tr := by
  cases Outcome.ok.inj h
  intro n hn
  simp at hn
  omega

theorem goodSleeps_select_data {trunc : Nat → Bool} {fuel : Nat} {tr : List Event}
    (h : select_data trunc fuel = .ok tr) : goodSleeps tr := by
  obtain ⟨str, j, hl, rfl⟩ := select_data_ok_elim h
  refine goodSleeps_append ?_ (goodSleeps_loopTrace hl ?_)
  · intro n hn; simp at hn
  · intro n hn; simp at hn

theorem goodSleeps_fixed3 {a b c : Event} {tr : List Event}
    (h : Outcome.ok [a, b, c] = .ok tr)
    (ha : ∀ n, a ≠ .sleep n) (hb : ∀ n, b ≠ .sleep n) (hc : ∀ n, c ≠ .sleep n) :
    goodSleeps tr := by
  cases Outcome.ok.inj h
  intro n hn
  simp at hn
  rcases hn with hn | hn | hn
  exacts [absurd hn.symm (ha n), absurd hn.symm (hb n), absurd hn.symm (hc n)]

theorem goodSleeps_vector_search {t : IndexType} {istates : Nat → IndexState}
    {fuel : Nat} {tr : List Event}
    (h : vector_search t istates fuel = .ok tr) : goodSleeps tr := by
  obtain ⟨ptr, j, r1, r2, r3, hl, -, -, -, -, rfl⟩ := vector_search_ok_elim h
  refine goodSleeps_append (goodSleeps_append ?_ ?_) ?_
  · intro n hn; simp at hn
  · exact goodSleeps_loopTrace hl (goodSleeps_pollIdx _)
  · intro n hn; simp at hn

theorem goodSleeps_search_iterator {b1 b2 : Nat → Bool} {fuel : Nat} {tr : List Event}
    (h : search_iterator b1 b2 fuel = .ok tr) : goodSleeps tr := by
  obtain ⟨tr1, j1, tr2, j2, h1, h2, rfl⟩ := search_iterator_ok_elim h
  have hiter : goodSleeps [Event.iterNext] := by intro n hn; simp at hn
  refine goodSleeps_append (goodSleeps_append (goodSleeps_append
    (goodSleeps_append ?_ (goodSleeps_loopTrace h1 hiter)) ?_)
    (goodSleeps_loopTrace h2 hiter)) ?_
  · intro n hn; simp at hn
  · intro n hn; simp at hn
  · intro n hn; simp at hn

theorem goodSleeps_drop_and_create_vindex {t : IndexType}
    {resp : Nat → Option ServerErrCode} {fuel : Nat} {tr : List Event}
    (h : drop_and_create_vindex t resp fuel = .ok tr) : goodSleeps tr := by
  obtain ⟨ptr, j, vidx, hl, -, rfl⟩ := drop_and_create_vindex_ok_elim h
  refine goodSleeps_append (goodSleeps_append ?_
    (goodSleeps_loopTrace hl (goodSleeps_pollIdx _))) ?_
  · intro n hn; simp at hn
  · intro n hn; simp at hn; omega

theorem goodSleeps_setupCleanup (dbName tblName : String) (b : Bool)
    (d : Option ServerErrCode) :
    goodSleeps (setupCleanup dbName tblName b d) := by
  cases b
  · rw [setupCleanup_not_found]
    intro n hn; simp at hn
  · rw [setupCleanup_found]
    intro n hn; simp at hn; omega

theorem goodSleeps_binary_vector_usage_example {b : Bool} {d : Option ServerErrCode}
    {tstates : Nat → TableState} {fuel : Nat} {tr : List Event}
    (h : binary_vector_usage_example b d tstates fuel = .ok tr) : goodSleeps tr := by
  obtain ⟨ptr, j, hl, rfl⟩ := binary_vector_usage_example_ok_elim h
  refine goodSleeps_append (goodSleeps_append (goodSleeps_append
    (goodSleeps_setupCleanup _ _ _ _) ?_) (goodSleeps_loopTrace hl (goodSleeps_poll _))) ?_
  · intro n hn; simp at hn
  · intro n hn; simp at hn

theorem goodSleeps_sparse_vector_usage_example {b : Bool} {d : Option ServerErrCode}
    {tstates : Nat → TableState} {fuel : Nat} {tr : List Event}
    (h : sparse_vector_usage_example b d tstates fuel = .ok tr) : goodSleeps tr := by
  obtain ⟨ptr, j, hl, rfl⟩ := sparse_vector_usage_example_ok_elim h
  refine goodSleeps_append (goodSleeps_append (goodSleeps_append
    (goodSleeps_setupCleanup _ _ _ _) ?_) (goodSleeps_loopTrace hl (goodSleeps_poll _))) ?_
  · intro n hn; simp at hn
  · intro n hn; simp at hn

theorem goodSleeps_delete_and_drop {tr : List Event} (h : delete_and_drop = .ok tr) :
    goodSleeps tr := by
  cases Outcome.ok.inj h
  intro n hn
  simp at hn
  omega

theorem mainProgram_ok_elim {env : Env} {fuel : Nat} {tr : List Event}
    (h : mainProgram env fuel = .ok tr) :
    ∃ t01 t02 t03 t04 t05 t06 t07 t08 t09 t10 t11 t12 t13 t14 t15 t16 t17 t18 : List Event,
      clear env.dbExists env.dropErr = .ok t01 ∧
      create_db_and_table IndexType.HNSWPQ env.tstates fuel = .ok t02 ∧
      upsert_data = .ok t03 ∧
      select_data env.selTrunc fuel = .ok t04 ∧
      change_table_schema = .ok t05 ∧
      show_table_stats = .ok t06 ∧
      query_data = .ok t07 ∧
      batch_query_data = .ok t08 ∧
      vector_search IndexType.HNSWPQ env.istates fuel = .ok t09 ∧
      search_iterator env.iter1 env.iter2 fuel = .ok t10 ∧
      bm25_search = .ok t11 ∧
      hybrid_search IndexType.HNSWPQ = .ok t12 ∧
      update_data = .ok t13 ∧
      delete_data = .ok t14 ∧
      drop_and_create_vindex IndexType.HNSWPQ env.dropIdxResp fuel = .ok t15 ∧
      binary_vector_usage_example env.binDbExists env.binDropErr env.binStates fuel = .ok t16 ∧
      sparse_vector_usage_example env.spDbExists env.spDropErr env.spStates fuel = .ok t17 ∧
      delete_and_drop = .ok t18 ∧
      tr = t01 ++ (t02 ++ (t03 ++ (t04 ++ (t05 ++ (t06 ++ (t07 ++ (t08 ++ (t09 ++ (t10 ++
        (t11 ++ (t12 ++ (t13 ++ (t14 ++ (t15 ++ (t16 ++ (t17 ++ t18)))))))))))))))) := by
  unfold mainProgram at h
  obtain ⟨t01, r01, h01, hr01, rfl⟩ := andThen_ok_elim h
  obtain ⟨t02, r02, h02, hr02, rfl⟩ := andThen_ok_elim hr01
  obtain ⟨t03, r03, h03, hr03, rfl⟩ := andThen_ok_elim hr02
  obtain ⟨t04, r04, h04, hr04, rfl⟩ := andThen_ok_elim hr03
  obtain ⟨t05, r05, h05, hr05, rfl⟩ := andThen_ok_elim hr04
  obtain ⟨t06, r06, h06, hr06, rfl⟩ := andThen_ok_elim hr05
  obtain ⟨t07, r07, h07, hr07, rfl⟩ := andThen_ok_elim hr06
  obtain ⟨t08, r08, h08, hr08, rfl⟩ := andThen_ok_elim hr07
  obtain ⟨t09, r09, h09, hr09, rfl⟩ := andThen_ok_elim hr08
  obtain ⟨t10, r10, h10, hr10, rfl⟩ := andThen_ok_elim hr09
  obtain ⟨t11, r11, h11, hr11, rfl⟩ := andThen_ok_elim hr10
  obtain ⟨t12, r12, h12, hr12, rfl⟩ := andThen_ok_elim hr11
  obtain ⟨t13, r13, h13, hr13, rfl⟩ := andThen_ok_elim hr12
  obtain ⟨t14, r14, h14, hr14, rfl⟩ := andThen_ok_elim hr13
  obtain ⟨t15, r15, h15, hr15, rfl⟩ := andThen_ok_elim hr14
  obtain ⟨t16, r16, h16, hr16, rfl⟩ := andThen_ok_elim hr15
  obtain ⟨t17, t18, h17, h18, rfl⟩ := andThen_ok_elim hr16
  exact ⟨t01, t02, t03, t04, t05, t06, t07, t08, t09, t10, t11, t12, t13, t14, t15, t16,
    t17, t18, h01, h02, h03, h04, h05, h06, h07, h08, h09, h10, h11, h12, h13, h14, h15,
    h16, h17, h18, rfl⟩

theorem vsReq_fst {t : IndexType} {k : SearchKind} {r : SearchKind × Option Nat}
    (h : vsReq t k = some r) : r.1 = k := by
  unfold vsReq at h
  split at h
  · cases Option.some.inj h
    rfl
  · split at h
    · cases Option.some.inj h
      rfl
    · exact absurd h (by simp)

/-- C1: whenever `create_db_and_table` completes, its trace shows that after
`create_table` the script did nothing but `sleep(2); describe_table` until the
first poll that returned `NORMAL`, and the remaining steps come strictly after
that poll; likewise, whenever `vector_search` completes, after `rebuild_index`
the script did nothing but `sleep(2); describe_index` until the first poll
that returned `NORMAL`, and all search requests come strictly after it.  So no
step following either wait loop is reached while the awaited state differs
from `NORMAL`. -/
theorem waits_until_normal (t : IndexType) (tstates : Nat → TableState)
    (istates : Nat → IndexState) (fuel fuel2 : Nat) (tr tr2 : List Event)
    (h1 : create_db_and_table t tstates fuel = .ok tr)
    (h2 : vector_search t istates fuel2 = .ok tr2) :
    (∃ idxs j, tstates j = TableState.NORMAL ∧
      (∀ i, i < j → tstates i ≠ TableState.NORMAL) ∧
      tr = [.createDatabase "book", .listDatabases,
            .createTable "book_segments" idxs] ++
        (List.replicate (j + 1) [Event.sleep 2, Event.describeTable "book_segments"]).flatten ++
        [.sleep 10, .modifyTable "book_segments", .sleep 10]) ∧
    (∃ l1 l2 l3 j, istates j = IndexState.NORMAL ∧
      (∀ i, i < j → istates i ≠ IndexState.NORMAL) ∧
      tr2 = [.databaseLookup "book", .tableLookup "book_segments",
             .rebuildIndex "vector_idx"] ++
        (List.replicate (j + 1) [Event.sleep 2, Event.describeIndex "vector_idx"]).flatten ++
        [.vectorSearch SearchKind.topk l1, .vectorSearch SearchKind.range l2,
         .vectorSearch SearchKind.batch l3, .vectorSearch SearchKind.multi (some 10)]) := by
  constructor
  · obtain ⟨vidx, ptr, j, hb, hl, rfl⟩ := create_db_and_table_ok_elim h1
    obtain ⟨-, hstop, hmid, htr⟩ := loopUntil_spec _ _ _ _ _ _ hl
    refine ⟨tableIndexes vidx, j, of_decide_eq_true hstop, ?_, ?_⟩
    · intro i hij
      have := hmid i (Nat.zero_le i) hij
      simpa using this
    · rw [htr]
      simp
  · obtain ⟨ptr, j, r1, r2, r3, hl, hr1, hr2, hr3, -, rfl⟩ := vector_search_ok_elim h2
    obtain ⟨-, hstop, hmid, htr⟩ := loopUntil_spec _ _ _ _ _ _ hl
    refine ⟨r1.2, r2.2, r3.2, j, of_decide_eq_true hstop, ?_, ?_⟩
    · intro i hij
      have := hmid i (Nat.zero_le i) hij
      simpa using this
    · rw [htr, vsReq_fst hr1, vsReq_fst hr2, vsReq_fst hr3]
      simp

/-- Witness for C1: a run whose table and index turn NORMAL at the second poll. -/
theorem waits_until_normal_witness :
    (∃ idxs j, tstatesW j = TableState.NORMAL ∧
      (∀ i, i < j → tstatesW i ≠ TableState.NORMAL) ∧
      trCreateW = [.createDatabase "book", .listDatabases,
            .createTable "book_segments" idxs] ++
        (List.replicate (j + 1) [Event.sleep 2, Event.describeTable "book_segments"]).flatten ++
        [.sleep 10, .modifyTable "book_segments", .sleep 10]) ∧
    (∃ l1 l2 l3 j, istatesW j = IndexState.NORMAL ∧
      (∀ i, i < j → istatesW i ≠ IndexState.NORMAL) ∧
      trVSW = [.databaseLookup "book", .tableLookup "book_segments",
             .rebuildIndex "vector_idx"] ++
        (List.replicate (j + 1) [Event.sleep 2, Event.describeIndex "vector_idx"]).flatten ++
        [.vectorSearch SearchKind.topk l1, .vectorSearch SearchKind.range l2,
         .vectorSearch SearchKind.batch l3, .vectorSearch SearchKind.multi (some 10)]) :=
  waits_until_normal IndexType.HNSW tstatesW istatesW 2 2 trCreateW trVSW rfl rfl

/-- C9: `clear()` suppresses every `ServerError` raised by `drop_table`
regardless of its code — the comparison of `e.code` against `TABLE_NOT_EXIST`
in the handler has no effect on control flow — so for any server error code
whatsoever, `clear()` still sleeps 10 seconds and calls `drop_database`, and
its behaviour is identical to an error-free run. -/
theorem clear_suppresses_all_server_errors (c : ServerErrCode) :
    clear true (some c) = clear true none ∧
    clear true (some c) =
      .ok [.databaseLookup "book", .dropTable "book_segments",
           .sleep 10, .dropDatabase] := by
  refine ⟨?_, clear_found (some c)⟩
  rw [clear_found (some c), clear_found none]

/-- C3: cleanup ignores expected not-found conditions: in `clear()` a
`ClientError` from the database lookup makes the script skip both drops and
return normally; a `ServerError` with code `TABLE_NOT_EXIST` from `drop_table`
is tolerated and the script still proceeds to `drop_database`; the setup
cleanup of `binary_vector_usage_example` shows the same pattern, proceeding to
`create_database` in both situations. -/
theorem cleanup_tolerates_not_found (d : Option ServerErrCode)
    (bst : Nat → TableState) (fuel : Nat) (tr tr2 : List Event)
    (h3 : binary_vector_usage_example false d bst fuel = .ok tr)
    (h4 : binary_vector_usage_example true (some ServerErrCode.TABLE_NOT_EXIST)
      bst fuel = .ok tr2) :
    clear false d = .ok [.databaseLookup "book"] ∧
    clear true (some ServerErrCode.TABLE_NOT_EXIST) =
      .ok [.databaseLookup "book", .dropTable "book_segments",
           .sleep 10, .dropDatabase] ∧
    (∃ rest, tr = [.databaseLookup "test_binary_vec",
                   .createDatabase "test_binary_vec"] ++ rest) ∧
    (∃ rest, tr2 = [.databaseLookup "test_binary_vec",
                    .dropTable "test_binary_vec_tab", .sleep 10, .dropDatabase,
                    .createDatabase "test_binary_vec"] ++ rest) := by
  refine ⟨clear_not_found d, clear_found _, ?_, ?_⟩
  · obtain ⟨ptr, j, hl, rfl⟩ := binary_vector_usage_example_ok_elim h3
    rw [setupCleanup_not_found]
    refine ⟨Event.createTable "test_binary_vec_tab" [] ::
      (ptr ++ [.tableLookup "test_binary_vec_tab", .upsert,
               .vectorSearch SearchKind.topk (some 10)]), ?_⟩
    simp
  · obtain ⟨ptr, j, hl, rfl⟩ := binary_vector_usage_example_ok_elim h4
    rw [setupCleanup_found]
    refine ⟨Event.createTable "test_binary_vec_tab" [] ::
      (ptr ++ [.tableLookup "test_binary_vec_tab", .upsert,
               .vectorSearch SearchKind.topk (some 10)]), ?_⟩
    simp

/-- Witness for C3 with both cleanup situations realized concretely. -/
theorem cleanup_tolerates_not_found_witness :
    clear false none = .ok [.databaseLookup "book"] ∧
    clear true (some ServerErrCode.TABLE_NOT_EXIST) =
      .ok [.databaseLookup "book", .dropTable "book_segments",
           .sleep 10, .dropDatabase] ∧
    (∃ rest, trBinW1 = [.databaseLookup "test_binary_vec",
                        .createDatabase "test_binary_vec"] ++ rest) ∧
    (∃ rest, trBinW2 = [.databaseLookup "test_binary_vec",
                        .dropTable "test_binary_vec_tab", .sleep 10, .dropDatabase,
                        .createDatabase "test_binary_vec"] ++ rest) :=
  cleanup_tolerates_not_found none (fun _ => TableState.NORMAL) 1 trBinW1 trBinW2 rfl rfl

/-- C5: for any vector index type other than HNSW, HNSWPQ and PUCK,
`create_db_and_table` raises `Exception("not support index type")` before
`db.create_table` is ever invoked (its trace holds only `create_database` and
`list_databases`), and `drop_and_create_vindex` raises the same exception and
never reaches `table.create_indexes`; for each of the three supported types
exactly one `VectorIndex` on field "vector" with L2 metric and that type is
added to the index list, with no exception at that point. -/
theorem unsupported_index_type_raises (t : IndexType)
    (hns : t ≠ IndexType.HNSW ∧ t ≠ IndexType.HNSWPQ ∧ t ≠ IndexType.PUCK) :
    (∀ tstates fuel, create_db_and_table t tstates fuel =
      .exc [.createDatabase "book", .listDatabases]
        (.exception "not support index type")) ∧
    (∀ idxs, Event.createTable "book_segments" idxs ∉
      ([.createDatabase "book", .listDatabases] : List Event)) ∧
    (∀ resp fuel tr, drop_and_create_vindex t resp fuel ≠ .ok tr) ∧
    (∀ resp fuel tr e, drop_and_create_vindex t resp fuel = .exc tr e →
      e = .exception "not support index type" ∧
      ∀ idxs, Event.createIndexes idxs ∉ tr) ∧
    (∀ t', t' = IndexType.HNSW ∨ t' = IndexType.HNSWPQ ∨ t' = IndexType.PUCK →
      ∃ p ab, buildVectorIndex t' =
          .ok (.vector "vector_idx" t' "vector" MetricType.L2 p ab) ∧
        List.countP isVectorIdx
          (tableIndexes (.vector "vector_idx" t' "vector" MetricType.L2 p ab)) = 1 ∧
        ∃ p2 ab2, buildVectorIndex2 t' =
          .ok (.vector "vector_idx" t' "vector" MetricType.L2 p2 ab2)) := by
  obtain ⟨hn1, hn2, hn3⟩ := hns
  have hbuild : buildVectorIndex t = .error (.exception "not support index type") := by
    simp [buildVectorIndex, hn1, hn2, hn3]
  have hbuild2 : buildVectorIndex2 t = .error (.exception "not support index type") := by
    simp [buildVectorIndex2, hn1, hn2, hn3]
  refine ⟨?_, ?_, ?_, ?_, ?_⟩
  · intro tstates fuel
    simp only [create_db_and_table, hbuild]
  · intro idxs
    simp
  · intro resp fuel tr hok
    obtain ⟨ptr, j, vidx, -, hb, -⟩ := drop_and_create_vindex_ok_elim hok
    rw [hbuild2] at hb
    exact absurd hb (by simp)
  · intro resp fuel tr e hexc
    obtain ⟨ptr, j, hl, hberr, rfl⟩ := drop_and_create_vindex_exc_elim hexc
    rw [hbuild2] at hberr
    refine ⟨(Except.error.inj hberr).symm, ?_⟩
    intro idxs hmem
    obtain ⟨-, -, -, htr⟩ := loopUntil_spec _ _ _ _ _ _ hl
    rcases List.mem_append.mp hmem with hmem | hmem
    · simp at hmem
    · rw [htr] at hmem
      obtain ⟨l, hlmem, hmem⟩ := List.mem_flatten.mp hmem
      rw [List.eq_of_mem_replicate hlmem] at hmem
      simp at hmem
  · intro t' ht'
    rcases ht' with rfl | rfl | rfl
    · exact ⟨some (.hnsw 32 200), none, rfl, rfl, some (.hnsw 16 200), some false, rfl⟩
    · exact ⟨some (.hnswpq 16 200 4), none, rfl, rfl, some (.hnswpq 16 200 4), none, rfl⟩
    · exact ⟨some (.puck 5 5), none, rfl, rfl, some (.puck 5 5), some false, rfl⟩

/-- Witness for C5 at the unsupported type `SPARSE_OPTIMIZED_FLAT`. -/
theorem unsupported_index_type_raises_witness :
    create_db_and_table IndexType.SPARSE_OPTIMIZED_FLAT (fun _ => TableState.NORMAL) 1 =
      .exc [.createDatabase "book", .listDatabases]
        (.exception "not support index type") :=
  (unsupported_index_type_raises IndexType.SPARSE_OPTIMIZED_FLAT (by decide)).1
    (fun _ => TableState.NORMAL) 1

/-- C7: the script's error handling is exhausted by the following behaviours.
The wait loop of `drop_and_create_vindex` exits exactly when `describe_index`
raises a `ServerError` with code `INDEX_NOT_EXIST` (its completed trace shows
the break at the first such poll, and if no poll ever raises that code the
method never gets past the loop); in `clear()` the `ServerError` handler of
`drop_table` suppresses every code (only `TABLE_NOT_EXIST` is inspected, to no
effect) and the `ClientError` handler of the database lookup ends the method
normally; and a plain `Exception` (unsupported index type) is caught nowhere,
propagating out of `create_db_and_table`. -/
theorem only_client_and_server_errors_handled (t : IndexType)
    (resp resp2 : Nat → Option ServerErrCode) (fuel : Nat)
    (tr : List Event) (c : ServerErrCode) (d : Option ServerErrCode) :
    (drop_and_create_vindex t resp fuel = .ok tr →
      ∃ j rest, resp j = some ServerErrCode.INDEX_NOT_EXIST ∧
        (∀ i, i < j → resp i ≠ some ServerErrCode.INDEX_NOT_EXIST) ∧
        tr = [.databaseLookup "book", .tableLookup "book_segments",
              .dropIndex "vector_idx"] ++
          (List.replicate (j + 1) [Event.sleep 2, Event.describeIndex "vector_idx"]).flatten ++
          rest) ∧
    ((∀ i, resp2 i ≠ some ServerErrCode.INDEX_NOT_EXIST) →
      ∀ f, drop_and_create_vindex t resp2 f = .diverge) ∧
    clear true (some c) = .ok [.databaseLookup "book", .dropTable "book_segments",
      .sleep 10, .dropDatabase] ∧
    clear false d = .ok [.databaseLookup "book"] ∧
    (∀ tstates f, create_db_and_table IndexType.SPARSE_OPTIMIZED_FLAT tstates f =
      .exc [.createDatabase "book", .listDatabases]
        (.exception "not support index type")) := by
  refine ⟨?_, ?_, clear_found c, clear_not_found d, fun tstates f => rfl⟩
  · intro h
    obtain ⟨ptr, j, vidx, hl, -, rfl⟩ := drop_and_create_vindex_ok_elim h
    obtain ⟨-, hstop, hmid, htr⟩ := loopUntil_spec _ _ _ _ _ _ hl
    refine ⟨j, [.createIndexes [vidx], .sleep 1, .modifyIndex "vector_idx",
      .describeIndex "vector_idx"], of_decide_eq_true hstop, ?_, ?_⟩
    · intro i hij
      have := hmid i (Nat.zero_le i) hij
      simpa using this
    · rw [htr]
      simp
  · intro hne f
    have hstop : ∀ i, decide (resp2 i = some ServerErrCode.INDEX_NOT_EXIST) = false :=
      fun i => decide_eq_false (hne i)
    simp only [drop_and_create_vindex,
      loopUntil_none [.sleep 2, .describeIndex "vector_idx"] _ hstop f 0]

/-- Witness for C7: a concrete exit of the drop-index wait loop at the first
poll, and a concrete run in which no `INDEX_NOT_EXIST` ever arrives and the
loop never exits. -/
theorem only_client_and_server_errors_handled_witness :
    (∃ j rest,
      (fun (_ : Nat) => some ServerErrCode.INDEX_NOT_EXIST) j =
        some ServerErrCode.INDEX_NOT_EXIST ∧
      (∀ i, i < j →
        (fun (_ : Nat) => some ServerErrCode.INDEX_NOT_EXIST) i ≠
          some ServerErrCode.INDEX_NOT_EXIST) ∧
      trDropW = [.databaseLookup "book", .tableLookup "book_segments",
                 .dropIndex "vector_idx"] ++
        (List.replicate (j + 1) [Event.sleep 2, Event.describeIndex "vector_idx"]).flatten ++
        rest) ∧
    (∀ f, drop_and_create_vindex IndexType.HNSWPQ (fun _ => none) f = .diverge) :=
  ⟨(only_client_and_server_errors_handled IndexType.HNSWPQ
      (fun _ => some ServerErrCode.INDEX_NOT_EXIST) (fun _ => none) 1 trDropW
      ServerErrCode.INTERNAL_ERROR none).1 rfl,
   (only_client_and_server_errors_handled IndexType.HNSWPQ
      (fun _ => some ServerErrCode.INDEX_NOT_EXIST) (fun _ => none) 1 trDropW
      ServerErrCode.INTERNAL_ERROR none).2.1 (fun i => by simp)⟩

/-- C10: constructed with a vector index type outside HNSW/HNSWPQ/PUCK, the
request-building chains assign nothing, so `vector_search` cannot complete:
once its wait loop finishes it raises `NameError` for the local `request` with
no search event issued, and `hybrid_search` raises `NameError` for the local
`config` before any search; for each of the three supported types those
locals are assigned on every path, `vector_search` never raises, and
`hybrid_search` completes normally. -/
theorem unbound_local_raises_name_error (t : IndexType)
    (hns : t ≠ IndexType.HNSW ∧ t ≠ IndexType.HNSWPQ ∧ t ≠ IndexType.PUCK)
    (istates : Nat → IndexState) (fuel : Nat) :
    (∀ tr, vector_search t istates fuel ≠ .ok tr) ∧
    (∀ tr e, vector_search t istates fuel = .exc tr e →
      e = .nameError "request" ∧ ∀ k l, Event.vectorSearch k l ∉ tr) ∧
    (∀ ptr j, loopUntil [.sleep 2, .describeIndex "vector_idx"]
        (fun k => decide (istates k = IndexState.NORMAL)) fuel 0 = some (ptr, j) →
      vector_search t istates fuel =
        .exc ([.databaseLookup "book", .tableLookup "book_segments",
               .rebuildIndex "vector_idx"] ++ ptr) (.nameError "request")) ∧
    hybrid_search t = .exc [.databaseLookup "book", .tableLookup "book_segments"]
      (.nameError "config") ∧
    (∀ t', t' = IndexType.HNSW ∨ t' = IndexType.HNSWPQ ∨ t' = IndexType.PUCK →
      (∀ tr e, vector_search t' istates fuel ≠ .exc tr e) ∧
      hybrid_search t' = .ok [.databaseLookup "book", .tableLookup "book_segments",
        .hybridSearch]) := by
  have hreq : ∀ k, vsReq t k = none := fun k => (vsReq_eq_none_iff t k).mpr hns
  have hconf : vsConfig t = none := (vsConfig_eq_none_iff t).mpr hns
  refine ⟨?_, ?_, ?_, ?_, ?_⟩
  · intro tr hok
    obtain ⟨ptr, j, r1, r2, r3, -, h1, -, -, -, -⟩ := vector_search_ok_elim hok
    rw [hreq SearchKind.topk] at h1
    exact absurd h1 (by simp)
  · intro tr e hexc
    obtain ⟨ptr, j, hl, -, he, rfl⟩ := vector_search_exc_elim hexc
    refine ⟨he, ?_⟩
    intro k l hmem
    obtain ⟨-, -, -, htr⟩ := loopUntil_spec _ _ _ _ _ _ hl
    rcases List.mem_append.mp hmem with hmem | hmem
    · simp at hmem
    · rw [htr] at hmem
      obtain ⟨lst, hlmem, hmem⟩ := List.mem_flatten.mp hmem
      rw [List.eq_of_mem_replicate hlmem] at hmem
      simp at hmem
  · intro ptr j hl
    simp only [vector_search, hl, hreq SearchKind.topk]
  · simp only [hybrid_search, hconf]
  · intro t' ht'
    constructor
    · intro tr e hexc
      obtain ⟨ptr, j, -, h1, -, -⟩ := vector_search_exc_elim hexc
      rcases ht' with rfl | rfl | rfl <;> simp [vsReq] at h1
    · rcases ht' with rfl | rfl | rfl <;> rfl

/-- Witness for C10 at `SPARSE_OPTIMIZED_FLAT` with the wait loop exiting at
the first poll. -/
theorem unbound_local_raises_name_error_witness :
    vector_search IndexType.SPARSE_OPTIMIZED_FLAT (fun _ => IndexState.NORMAL) 1 =
      .exc ([.databaseLookup "book", .tableLookup "book_segments",
             .rebuildIndex "vector_idx"] ++
            [Event.sleep 2, Event.describeIndex "vector_idx"]) (.nameError "request") ∧
    hybrid_search IndexType.SPARSE_OPTIMIZED_FLAT =
      .exc [.databaseLookup "book", .tableLookup "book_segments"]
        (.nameError "config") :=
  ⟨(unbound_local_raises_name_error IndexType.SPARSE_OPTIMIZED_FLAT (by decide)
      (fun _ => IndexState.NORMAL) 1).2.2.1
      [Event.sleep 2, Event.describeIndex "vector_idx"] 0 rfl,
   (unbound_local_raises_name_error IndexType.SPARSE_OPTIMIZED_FLAT (by decide)
      (fun _ => IndexState.NORMAL) 1).2.2.2.1⟩

/-- C6: executed as the main program, the script is a single linear trace (no
two SDK calls overlap) obtained by running its demo steps strictly one after
another in the fixed order clear, create_db_and_table, upsert_data,
select_data, change_table_schema, show_table_stats, query_data,
batch_query_data, vector_search, search_iterator, bm25_search, hybrid_search,
update_data, delete_data, drop_and_create_vindex, binary_vector_usage_example,
sparse_vector_usage_example, delete_and_drop; in doing so each SDK method
create_database, create_table, upsert, query, vector_search, bm25_search,
hybrid_search, update, delete, drop_table and drop_database is invoked at
least once. -/
theorem main_runs_steps_in_order (env : Env) (fuel : Nat) (tr : List Event)
    (h : mainProgram env fuel = .ok tr) :
    (∃ t01 t02 t03 t04 t05 t06 t07 t08 t09 t10 t11 t12 t13 t14 t15 t16 t17 t18 :
        List Event,
      clear env.dbExists env.dropErr = .ok t01 ∧
      create_db_and_table IndexType.HNSWPQ env.tstates fuel = .ok t02 ∧
      upsert_data = .ok t03 ∧
      select_data env.selTrunc fuel = .ok t04 ∧
      change_table_schema = .ok t05 ∧
      show_table_stats = .ok t06 ∧
      query_data = .ok t07 ∧
      batch_query_data = .ok t08 ∧
      vector_search IndexType.HNSWPQ env.istates fuel = .ok t09 ∧
      search_iterator env.iter1 env.iter2 fuel = .ok t10 ∧
      bm25_search = .ok t11 ∧
      hybrid_search IndexType.HNSWPQ = .ok t12 ∧
      update_data = .ok t13 ∧
      delete_data = .ok t14 ∧
      drop_and_create_vindex IndexType.HNSWPQ env.dropIdxResp fuel = .ok t15 ∧
      binary_vector_usage_example env.binDbExists env.binDropErr env.binStates fuel =
        .ok t16 ∧
      sparse_vector_usage_example env.spDbExists env.spDropErr env.spStates fuel =
        .ok t17 ∧
      delete_and_drop = .ok t18 ∧
      tr = t01 ++ (t02 ++ (t03 ++ (t04 ++ (t05 ++ (t06 ++ (t07 ++ (t08 ++ (t09 ++ (t10 ++
        (t11 ++ (t12 ++ (t13 ++ (t14 ++ (t15 ++ (t16 ++ (t17 ++ t18))))))))))))))))) ∧
    Event.createDatabase "book" ∈ tr ∧
    (∃ idxs, Event.createTable "book_segments" idxs ∈ tr) ∧
    Event.upsert ∈ tr ∧
    Event.query ∈ tr ∧
    (∃ k l, Event.vectorSearch k l ∈ tr) ∧
    Event.bm25Search ∈ tr ∧
    Event.hybridSearch ∈ tr ∧
    Event.update ∈ tr ∧
    Event.delete ∈ tr ∧
    Event.dropTable "book_segments" ∈ tr ∧
    Event.dropDatabase ∈ tr := by
  obtain ⟨t01, t02, t03, t04, t05, t06, t07, t08, t09, t10, t11, t12, t13, t14, t15, t16,
    t17, t18, h01, h02, h03, h04, h05, h06, h07, h08, h09, h10, h11, h12, h13, h14, h15,
    h16, h17, h18, htr⟩ := mainProgram_ok_elim h
  have hm02a : Event.createDatabase "book" ∈ t02 := by
    obtain ⟨vidx, ptr, j, -, -, rfl⟩ := create_db_and_table_ok_elim h02
    simp
  have hm02b : Event.createTable "book_segments" (tableIndexes
      (.vector "vector_idx" IndexType.HNSWPQ "vector" MetricType.L2
        (some (.hnswpq 16 200 4)) none)) ∈ t02 := by
    obtain ⟨vidx, ptr, j, hb, -, rfl⟩ := create_db_and_table_ok_elim h02
    have hv : vidx = .vector "vector_idx" IndexType.HNSWPQ "vector" MetricType.L2
        (some (.hnswpq 16 200 4)) none := (Except.ok.inj hb).symm
    rw [hv]
    simp
  have hm03 : Event.upsert ∈ t03 := by
    cases Outcome.ok.inj h03
    simp
  have hm07 : Event.query ∈ t07 := by
    cases Outcome.ok.inj h07
    simp
  have hm09 : Event.vectorSearch SearchKind.multi (some 10) ∈ t09 := by
    obtain ⟨ptr, j, r1, r2, r3, -, -, -, -, -, rfl⟩ := vector_search_ok_elim h09
    simp
  have hm11 : Event.bm25Search ∈ t11 := by
    cases Outcome.ok.inj h11
    simp
  have hm12 : Event.hybridSearch ∈ t12 := by
    obtain ⟨-, rfl⟩ := hybrid_search_ok_elim h12
    simp
  have hm13 : Event.update ∈ t13 := by
    cases Outcome.ok.inj h13
    simp
  have hm14 : Event.delete ∈ t14 := by
    cases Outcome.ok.inj h14
    simp
  have hm18a : Event.dropTable "book_segments" ∈ t18 := by
    cases Outcome.ok.inj h18
    simp
  have hm18b : Event.dropDatabase ∈ t18 := by
    cases Outcome.ok.inj h18
    simp
  subst htr
  refine ⟨⟨t01, t02, t03, t04, t05, t06, t07, t08, t09, t10, t11, t12, t13, t14, t15,
    t16, t17, t18, h01, h02, h03, h04, h05, h06, h07, h08, h09, h10, h11, h12, h13,
    h14, h15, h16, h17, h18, rfl⟩, ?_,
    ⟨tableIndexes (.vector "vector_idx" IndexType.HNSWPQ "vector" MetricType.L2
      (some (.hnswpq 16 200 4)) none), ?_⟩, ?_, ?_,
    ⟨SearchKind.multi, some 10, ?_⟩, ?_, ?_, ?_, ?_, ?_, ?_⟩
  all_goals simp only [List.mem_append]
  · exact Or.inr (Or.inl hm02a)
  · exact Or.inr (Or.inl hm02b)
  · exact Or.inr (Or.inr (Or.inl hm03))
  · exact Or.inr (Or.inr (Or.inr (Or.inr (Or.inr (Or.inr (Or.inl hm07))))))
  · exact Or.inr (Or.inr (Or.inr (Or.inr (Or.inr (Or.inr (Or.inr (Or.inr
      (Or.inl hm09))))))))
  · exact Or.inr (Or.inr (Or.inr (Or.inr (Or.inr (Or.inr (Or.inr (Or.inr
      (Or.inr (Or.inr (Or.inl hm11))))))))))
  · exact Or.inr (Or.inr (Or.inr (Or.inr (Or.inr (Or.inr (Or.inr (Or.inr
      (Or.inr (Or.inr (Or.inr (Or.inl hm12)))))))))))
  · exact Or.inr (Or.inr (Or.inr (Or.inr (Or.inr (Or.inr (Or.inr (Or.inr
      (Or.inr (Or.inr (Or.inr (Or.inr (Or.inl hm13))))))))))))
  · exact Or.inr (Or.inr (Or.inr (Or.inr (Or.inr (Or.inr (Or.inr (Or.inr
      (Or.inr (Or.inr (Or.inr (Or.inr (Or.inr (Or.inl hm14)))))))))))))
  · exact Or.inr (Or.inr (Or.inr (Or.inr (Or.inr (Or.inr (Or.inr (Or.inr
      (Or.inr (Or.inr (Or.inr (Or.inr (Or.inr (Or.inr (Or.inr (Or.inr
      (Or.inr hm18a))))))))))))))))
  · exact Or.inr (Or.inr (Or.inr (Or.inr (Or.inr (Or.inr (Or.inr (Or.inr
      (Or.inr (Or.inr (Or.inr (Or.inr (Or.inr (Or.inr (Or.inr (Or.inr
      (Or.inr hm18b))))))))))))))))

/-- Witness for C6 on the concrete environment `envW`. -/
theorem main_runs_steps_in_order_witness :
    Event.upsert ∈ mainTraceW ∧ Event.bm25Search ∈ mainTraceW ∧
    Event.hybridSearch ∈ mainTraceW ∧ Event.dropDatabase ∈ mainTraceW := by
  obtain ⟨-, -, -, h3, -, -, h6, h7, -, -, -, h11⟩ :=
    main_runs_steps_in_order envW 1 mainTraceW rfl
  exact ⟨h3, h6, h7, h11⟩

/-- C4: a completed main run issues every search mode at least once — top-k,
range, batch and multi-vector through `table.vector_search`, BM25 through
`table.bm25_search` and hybrid through `table.hybrid_search` — and drives two
streaming search iterators, each consumed by repeated `next()` calls exactly
until the first empty batch and then closed. -/
theorem all_search_modes_issued (env : Env) (fuel : Nat) (tr : List Event)
    (h : mainProgram env fuel = .ok tr) :
    Event.vectorSearch SearchKind.topk (some 10) ∈ tr ∧
    Event.vectorSearch SearchKind.range (some 10) ∈ tr ∧
    Event.vectorSearch SearchKind.batch (some 10) ∈ tr ∧
    Event.vectorSearch SearchKind.multi (some 10) ∈ tr ∧
    Event.bm25Search ∈ tr ∧
    Event.hybridSearch ∈ tr ∧
    (∃ t10 j1 j2, search_iterator env.iter1 env.iter2 fuel = .ok t10 ∧
      env.iter1 j1 = false ∧ (∀ i, i < j1 → env.iter1 i = true) ∧
      env.iter2 j2 = false ∧ (∀ i, i < j2 → env.iter2 i = true) ∧
      t10 = [.databaseLookup "book", .tableLookup "book_segments",
             .searchIteratorNew] ++
        (List.replicate (j1 + 1) [Event.iterNext]).flatten ++
        [.iterClose, .searchIteratorNew] ++
        (List.replicate (j2 + 1) [Event.iterNext]).flatten ++ [.iterClose]) := by
  obtain ⟨t01, t02, t03, t04, t05, t06, t07, t08, t09, t10, t11, t12, t13, t14, t15, t16,
    t17, t18, h01, h02, h03, h04, h05, h06, h07, h08, h09, h10, h11, h12, h13, h14, h15,
    h16, h17, h18, htr⟩ := mainProgram_ok_elim h
  have hm09 : Event.vectorSearch SearchKind.topk (some 10) ∈ t09 ∧
      Event.vectorSearch SearchKind.range (some 10) ∈ t09 ∧
      Event.vectorSearch SearchKind.batch (some 10) ∈ t09 ∧
      Event.vectorSearch SearchKind.multi (some 10) ∈ t09 := by
    obtain ⟨ptr, j, r1, r2, r3, -, hr1, hr2, hr3, -, rfl⟩ := vector_search_ok_elim h09
    have e1 : r1 = (SearchKind.topk, some 10) := Option.some.inj hr1.symm
    have e2 : r2 = (SearchKind.range, some 10) := Option.some.inj hr2.symm
    have e3 : r3 = (SearchKind.batch, some 10) := Option.some.inj hr3.symm
    rw [e1, e2, e3]
    refine ⟨?_, ?_, ?_, ?_⟩ <;> simp
  have hm11 : Event.bm25Search ∈ t11 := by
    cases Outcome.ok.inj h11
    simp
  have hm12 : Event.hybridSearch ∈ t12 := by
    obtain ⟨-, rfl⟩ := hybrid_search_ok_elim h12
    simp
  have hiter : ∃ j1 j2,
      env.iter1 j1 = false ∧ (∀ i, i < j1 → env.iter1 i = true) ∧
      env.iter2 j2 = false ∧ (∀ i, i < j2 → env.iter2 i = true) ∧
      t10 = [.databaseLookup "book", .tableLookup "book_segments",
             .searchIteratorNew] ++
        (List.replicate (j1 + 1) [Event.iterNext]).flatten ++
        [.iterClose, .searchIteratorNew] ++
        (List.replicate (j2 + 1) [Event.iterNext]).flatten ++ [.iterClose] := by
    obtain ⟨tr1, j1, tr2, j2, hl1, hl2, rfl⟩ := search_iterator_ok_elim h10
    obtain ⟨-, hs1, hmid1, htr1⟩ := loopUntil_spec _ _ _ _ _ _ hl1
    obtain ⟨-, hs2, hmid2, htr2⟩ := loopUntil_spec _ _ _ _ _ _ hl2
    refine ⟨j1, j2, by simpa using hs1, ?_, by simpa using hs2, ?_, ?_⟩
    · intro i hij
      have := hmid1 i (Nat.zero_le i) hij
      simpa using this
    · intro i hij
      have := hmid2 i (Nat.zero_le i) hij
      simpa using this
    · rw [htr1, htr2]
      simp
  subst htr
  obtain ⟨hma, hmb, hmc, hmd⟩ := hm09
  refine ⟨?_, ?_, ?_, ?_, ?_, ?_, ?_⟩
  · simp only [List.mem_append]
    exact Or.inr (Or.inr (Or.inr (Or.inr (Or.inr (Or.inr (Or.inr (Or.inr
      (Or.inl hma))))))))
  · simp only [List.mem_append]
    exact Or.inr (Or.inr (Or.inr (Or.inr (Or.inr (Or.inr (Or.inr (Or.inr
      (Or.inl hmb))))))))
  · simp only [List.mem_append]
    exact Or.inr (Or.inr (Or.inr (Or.inr (Or.inr (Or.inr (Or.inr (Or.inr
      (Or.inl hmc))))))))
  · simp only [List.mem_append]
    exact Or.inr (Or.inr (Or.inr (Or.inr (Or.inr (Or.inr (Or.inr (Or.inr
      (Or.inl hmd))))))))
  · simp only [List.mem_append]
    exact Or.inr (Or.inr (Or.inr (Or.inr (Or.inr (Or.inr (Or.inr (Or.inr
      (Or.inr (Or.inr (Or.inl hm11))))))))))
  · simp only [List.mem_append]
    exact Or.inr (Or.inr (Or.inr (Or.inr (Or.inr (Or.inr (Or.inr (Or.inr
      (Or.inr (Or.inr (Or.inr (Or.inl hm12)))))))))))
  · obtain ⟨j1, j2, a1, a2, a3, a4, a5⟩ := hiter
    exact ⟨t10, j1, j2, h10, a1, a2, a3, a4, a5⟩

/-- Witness for C4 on the concrete environment `envW`. -/
theorem all_search_modes_issued_witness :
    Event.vectorSearch SearchKind.topk (some 10) ∈ mainTraceW ∧
    Event.vectorSearch SearchKind.range (some 10) ∈ mainTraceW ∧
    Event.vectorSearch SearchKind.batch (some 10) ∈ mainTraceW ∧
    Event.vectorSearch SearchKind.multi (some 10) ∈ mainTraceW ∧
    Event.bm25Search ∈ mainTraceW ∧
    Event.hybridSearch ∈ mainTraceW ∧
    (∃ t10 j1 j2, search_iterator envW.iter1 envW.iter2 1 = .ok t10 ∧
      envW.iter1 j1 = false ∧ (∀ i, i < j1 → envW.iter1 i = true) ∧
      envW.iter2 j2 = false ∧ (∀ i, i < j2 → envW.iter2 i = true) ∧
      t10 = [.databaseLookup "book", .tableLookup "book_segments",
             .searchIteratorNew] ++
        (List.replicate (j1 + 1) [Event.iterNext]).flatten ++
        [.iterClose, .searchIteratorNew] ++
        (List.replicate (j2 + 1) [Event.iterNext]).flatten ++ [.iterClose]) :=
  all_search_modes_issued envW 1 mainTraceW rfl

theorem goodSleeps_hybrid_search {t : IndexType} {tr : List Event}
    (h : hybrid_search t = .ok tr) : goodSleeps tr := by
  obtain ⟨-, rfl⟩ := hybrid_search_ok_elim h
  intro n hn
  simp at hn

/-- C8: every delay of a completed main run is a hard-coded literal of 1, 2
or 10 seconds, and in the table/index wait loops of `create_db_and_table` and
`vector_search` the poll interval is always exactly 2 seconds; no delay is
computed from anything in the environment. -/
theorem fixed_sleep_durations (env : Env) (fuel : Nat) (tr tr1 tr2 : List Event)
    (t : IndexType) (tstates : Nat → TableState) (istates : Nat → IndexState)
    (f1 f2 : Nat)
    (h : mainProgram env fuel = .ok tr)
    (h1 : create_db_and_table t tstates f1 = .ok tr1)
    (h2 : vector_search t istates f2 = .ok tr2) :
    goodSleeps tr ∧
    (∃ vidx ptr, tr1 = [.createDatabase "book", .listDatabases,
        .createTable "book_segments" (tableIndexes vidx)] ++ ptr ++
        [.sleep 10, .modifyTable "book_segments", .sleep 10] ∧
      (∀ n, Event.sleep n ∈ ptr → n = 2)) ∧
    (∃ ptr searches, tr2 = ([.databaseLookup "book", .tableLookup "book_segments",
        .rebuildIndex "vector_idx"] ++ ptr) ++ searches ∧
      (∀ n, Event.sleep n ∈ ptr → n = 2) ∧
      (∀ n, Event.sleep n ∉ searches)) := by
  refine ⟨?_, ?_, ?_⟩
  · obtain ⟨t01, t02, t03, t04, t05, t06, t07, t08, t09, t10, t11, t12, t13, t14, t15,
      t16, t17, t18, h01, h02, h03, h04, h05, h06, h07, h08, h09, h10, h11, h12, h13,
      h14, h15, h16, h17, h18, rfl⟩ := mainProgram_ok_elim h
    exact goodSleeps_append (goodSleeps_clear h01)
      (goodSleeps_append (goodSleeps_create_db_and_table h02)
      (goodSleeps_append (goodSleeps_upsert_data h03)
      (goodSleeps_append (goodSleeps_select_data h04)
      (goodSleeps_append (goodSleeps_fixed3 h05 (by simp) (by simp) (by simp))
      (goodSleeps_append (goodSleeps_fixed3 h06 (by simp) (by simp) (by simp))
      (goodSleeps_append (goodSleeps_fixed3 h07 (by simp) (by simp) (by simp))
      (goodSleeps_append (goodSleeps_fixed3 h08 (by simp) (by simp) (by simp))
      (goodSleeps_append (goodSleeps_vector_search h09)
      (goodSleeps_append (goodSleeps_search_iterator h10)
      (goodSleeps_append (goodSleeps_fixed3 h11 (by simp) (by simp) (by simp))
      (goodSleeps_append (goodSleeps_hybrid_search h12)
      (goodSleeps_append (goodSleeps_fixed3 h13 (by simp) (by simp) (by simp))
      (goodSleeps_append (goodSleeps_fixed3 h14 (by simp) (by simp) (by simp))
      (goodSleeps_append (goodSleeps_drop_and_create_vindex h15)
      (goodSleeps_append (goodSleeps_binary_vector_usage_example h16)
      (goodSleeps_append (goodSleeps_sparse_vector_usage_example h17)
      (goodSleeps_delete_and_drop h18)))))))))))))))))
  · obtain ⟨vidx, ptr, j, -, hl, rfl⟩ := create_db_and_table_ok_elim h1
    obtain ⟨-, -, -, htr⟩ := loopUntil_spec _ _ _ _ _ _ hl
    refine ⟨vidx, ptr, rfl, ?_⟩
    intro n hn
    rw [htr] at hn
    obtain ⟨l, hlmem, hn⟩ := List.mem_flatten.mp hn
    rw [List.eq_of_mem_replicate hlmem] at hn
    simp at hn
    omega
  · obtain ⟨ptr, j, r1, r2, r3, hl, -, -, -, -, rfl⟩ := vector_search_ok_elim h2
    obtain ⟨-, -, -, htr⟩ := loopUntil_spec _ _ _ _ _ _ hl
    refine ⟨ptr, _, rfl, ?_, ?_⟩
    · intro n hn
      rw [htr] at hn
      obtain ⟨l, hlmem, hn⟩ := List.mem_flatten.mp hn
      rw [List.eq_of_mem_replicate hlmem] at hn
      simp at hn
      omega
    · intro n hn
      simp at hn

/-- Witness for C8 on the concrete environment `envW` and concrete runs of
the two polling methods. -/
theorem fixed_sleep_durations_witness :
    goodSleeps mainTraceW ∧
    (∃ vidx ptr, trCreateW = [.createDatabase "book", .listDatabases,
        .createTable "book_segments" (tableIndexes vidx)] ++ ptr ++
        [.sleep 10, .modifyTable "book_segments", .sleep 10] ∧
      (∀ n, Event.sleep n ∈ ptr → n = 2)) ∧
    (∃ ptr searches, trVSW = ([.databaseLookup "book", .tableLookup "book_segments",
        .rebuildIndex "vector_idx"] ++ ptr) ++ searches ∧
      (∀ n, Event.sleep n ∈ ptr → n = 2) ∧
      (∀ n, Event.sleep n ∉ searches)) :=
  fixed_sleep_durations envW 1 mainTraceW trCreateW trVSW IndexType.HNSW
    tstatesW istatesW 2 2 rfl rfl rfl

end Pymochow
